import Mathlib

/-!
# HoloPlay runtime module: player lifecycle

A shallow embedding of `FHoloPlayRuntimeModule` (HoloPlayRuntime.cpp): the manager
registry, `StartPlayer`, `StopPlayer`, `RestartPlayer`, the launch path
`StartPlayerSeparateProccess` and `InitAllManagers`.

The module object and the part of the host engine it touches are one record, `State`.
Every call the code makes on a manager or on the host that matters for the lifecycle is
appended to `State.log`, oldest first, so that "how often did X run" is a count over the log.
Values read from configuration objects at call time are passed in as `Environment`.
-/

namespace HoloPlay

/-! ## Data model -/

/-- The play mode, `EHoloPlayModeType`. The enum declaration is not among the sources;
`PlayMode_Other` stands for any value that reaches the `default:` label of the switches. -/
inductive EHoloPlayModeType
  | PlayMode_InSeparateWindow
  | PlayMode_InMainViewport
  | PlayMode_Other
  deriving DecidableEq, Repr

/-- The engine's `EAutoCenter`. -/
inductive EAutoCenter
  | None
  | PrimaryWorkArea
  | PreferredWorkArea
  deriving DecidableEq, Repr

/-- The engine's `EWindowMode::Type`. -/
inductive EWindowMode
  | Fullscreen
  | WindowedFullscreen
  | Windowed
  deriving DecidableEq, Repr

/-- An `FVector2D`. Its components are single-precision floats; every value the module
stores in one is a whole number, and the component holds that whole number. -/
structure FVector2D where
  X : Int
  Y : Int
  deriving DecidableEq, Repr

/-- An `FMargin`; float components holding whole numbers, as for `FVector2D`. -/
structure FMargin where
  Left : Int
  Top : Int
  Right : Int
  Bottom : Int
  deriving DecidableEq, Repr

/-- The fields of `UHoloPlaySettings::HoloPlayWindowSettings` the module reads. -/
structure FHoloPlayWindowSettings where
  bLockInMainViewport : Bool
  bUseBorderlessWindow : Bool
  WindowType : EWindowMode
  WindowAutoCenter : EAutoCenter
  bAutoPlacementInHoloPlay : Bool
  ClientSize : FVector2D
  ScreenPosition : FVector2D
  bUseOSWindowBorder : Bool
  RenderDirectlyToWindowInSeparateWindow : Bool
  LastExecutedPlayModeType : EHoloPlayModeType
  deriving DecidableEq, Repr

/-- Modelled from the spec: the calibration values of the display manager that the module
reads, 32-bit integers (pixel counts); the declaring header is not among the sources. -/
structure FCalibrationSettings where
  ScreenWidth : Int
  ScreenHeight : Int
  deriving DecidableEq, Repr

/-- Modelled from the spec: the display settings of the display manager that the module
reads, 32-bit integers (screen coordinates); the declaring header is not among the sources. -/
structure FDisplaySettings where
  LKGxpos : Int
  LKGypos : Int
  deriving DecidableEq, Repr

/-- Everything `StartPlayer` reads from outside the module at call time. -/
structure Environment where
  HoloPlayWindowSettings : FHoloPlayWindowSettings
  CalibrationSettings : FCalibrationSettings
  DisplaySettings : FDisplaySettings
  /-- Value of `MovieSceneCapture != nullptr && MovieSceneCapture->IsRooted()` -/
  bMovieSceneCaptureRooted : Bool
  /-- The editor's `LastExecutedPlayModeType == PlayMode_InEditorFloating` -/
  bEditorFloating : Bool
  /-- Value of `GameViewportWindow->GetWindowBorderSize()` -/
  WindowBorderSize : FMargin
  deriving DecidableEq, Repr

/-- What the launch path parses from the process: session name and command line. -/
structure LaunchArguments where
  /-- Value of `FApp::GetSessionName() == StandaloneSessionName` -/
  bStandaloneSessionName : Bool
  /-- True when `-MovieSceneCaptureManifest=` has a non-empty value -/
  bCaptureManifest : Bool
  /-- True when `-game` is on the command line -/
  bGameSwitch : Bool
  deriving DecidableEq, Repr

/-- A manager of the registry: its identity and what its fallible calls return. -/
structure Manager where
  id : Nat
  Init : Bool
  OnStartPlayer : EHoloPlayModeType → Bool

/-- The window built by `SNew(SWindow)` in the separate-window placement. -/
structure SWindow where
  id : Nat
  ClientSize : FVector2D
  ScreenPosition : FVector2D
  AutoCenter : EAutoCenter
  SaneWindowPlacement : Bool
  UseOSWindowBorder : Bool
  CreateTitleBar : Bool
  WindowMode : EWindowMode
  /-- The surface set with `SetContent` -/
  Content : Option Nat
  /-- True once `SetOnWindowClosed` was called with the module's delegate -/
  bOnWindowClosedSet : Bool
  deriving DecidableEq, Repr

/-- The render surface built by `SNew(SHoloPlayViewport)`. -/
structure SHoloPlayViewport where
  id : Nat
  bRenderDirectlyToWindow : Bool
  deriving DecidableEq, Repr

/-- The part of `GEngine->GameViewport` the module touches. -/
structure UGameViewportClient where
  bDisableWorldRendering : Bool
  /-- Ids of the widgets added with `AddViewportWidgetContent` -/
  ViewportWidgets : List Nat
  /-- Number of handlers the module added to `OnCloseRequested` -/
  CloseRequestedHandlers : Nat
  deriving DecidableEq, Repr

/-- The host engine as the module sees it. -/
structure Host where
  /-- Value of `GEngine->GameViewport`, `none` for a null pointer -/
  GameViewport : Option UGameViewportClient
  /-- Ids of the windows added to the Slate application and not yet handed to a destroy call -/
  SlateWindows : List Nat
  /-- Value of `FSlateApplication::IsInitialized()` -/
  bSlateInitialized : Bool
  /-- Value of `FSlateApplication::Get().IsRenderingOffScreen()` -/
  bRenderingOffScreen : Bool
  /-- The host fires a window's closed delegate from inside the destroy call -/
  bCloseFiresSynchronously : Bool
  GIsEditor : Bool
  /-- The build was compiled with `WITH_EDITOR` -/
  WITH_EDITOR : Bool
  /-- Next unused id for a window or a surface -/
  nextId : Nat
  deriving DecidableEq, Repr

/-- A call the module makes on a manager or on the host. -/
inductive Event
  | ManagerInit (m : Nat)
  | ManagerRelease (m : Nat)
  | ManagerOnStartPlayer (m : Nat) (mode : EHoloPlayModeType)
  | ManagerOnStopPlayer (m : Nat)
  | AddWindow (w : Nat)
  | ShowWindow (w : Nat)
  | CreateViewport (w : Nat)
  | RequestDestroyWindow (w : Nat)
  | DestroyWindowImmediately (w : Nat)
  | AddViewportWidgetContent (v : Nat)
  | RemoveViewportWidgetContent (v : Nat)
  | ReshapeWindow (w : Nat) (pos : FVector2D) (size : FVector2D)
  | ReshapeGameWindow (pos : FVector2D) (size : FVector2D)
  | RequestResolutionChange (size : FVector2D)
  deriving DecidableEq, Repr

/-- The members of `FHoloPlayRuntimeModule`, the host, and the log of calls made. -/
structure State where
  Managers : List Manager
  bIsManagerInit : Bool
  bSeparateProccessPlayerStarded : Bool
  bIsPlaying : Bool
  CurrentHoloPlayModeType : EHoloPlayModeType
  bLockInMainViewport : Bool
  bIsDestroyWindowRequested : Bool
  bIsStandaloneGame : Bool
  bIsCaptureStandaloneMovie : Bool
  bIsGameMode : Bool
  HoloPlayWindow : Option SWindow
  HoloPlayViewport : Option SHoloPlayViewport
  /-- Value of `OnWindowClosedDelegate.IsBound()` -/
  bOnWindowClosedBound : Bool
  host : Host
  log : List Event

/-- A run ends early on a null handle dereference, or when the nesting budget of
the reentrant `StopPlayer` is used up. -/
inductive Fault
  | nullHandle
  | outOfFuel
  deriving DecidableEq, Repr

/-- Modelled from the spec: the member initialisers of `FHoloPlayRuntimeModule`
(HoloPlayRuntime.h is not among the sources): the Idle state, no flag set, no handle held. -/
def State.initial (host : Host) : State :=
  { Managers := []
    bIsManagerInit := false
    bSeparateProccessPlayerStarded := false
    bIsPlaying := false
    CurrentHoloPlayModeType := EHoloPlayModeType.PlayMode_InMainViewport
    bLockInMainViewport := false
    bIsDestroyWindowRequested := false
    bIsStandaloneGame := false
    bIsCaptureStandaloneMovie := false
    bIsGameMode := false
    HoloPlayWindow := none
    HoloPlayViewport := none
    bOnWindowClosedBound := false
    host := host
    log := [] }

/-! ## Manager registry -/

/-- The four `Managers.Add` calls of `StartupModule`, in source order:
launch, scalability, command line, display. -/
def StartupModule (launch scalability commandLine display : Manager) (s : State) : State :=
  { s with Managers := (((s.Managers ++ [launch]) ++ [scalability]) ++ [commandLine]) ++ [display] }

/-- The loop of `ShutdownModule`: `for (auto Mng : Managers) Mng->Release()`. -/
def releaseLoop : List Manager → List Event → List Event
  | [], log => log
  | m :: ms, log => releaseLoop ms (log ++ [Event.ManagerRelease m.id])

/-- Embedding of `ShutdownModule`: release every manager, then empty the registry. -/
def ShutdownModule (s : State) : State :=
  { s with log := releaseLoop s.Managers s.log, Managers := [] }

/-- The loop of `InitAllManagers`:
`while (Result && it) { Result = Result && (*it)->Init(); ++it; }`. -/
def initLoop : List Manager → Bool → List Event → Bool × List Event
  | [], Result, log => (Result, log)
  | m :: ms, Result, log =>
    if Result then initLoop ms (Result && m.Init) (log ++ [Event.ManagerInit m.id])
    else (Result, log)

/-- Embedding of `InitAllManagers`, guarded by `bIsManagerInit`. -/
def InitAllManagers (s : State) : State :=
  if s.bIsManagerInit = false then
    { s with bIsManagerInit := true, log := (initLoop s.Managers true s.log).2 }
  else s

/-- The manager loop of `StartPlayer`:
`while (Result && it) { Result = Result && (*it)->OnStartPlayer(mode); ++it; }`. -/
def startLoop (mode : EHoloPlayModeType) : List Manager → Bool → List Event → Bool × List Event
  | [], Result, log => (Result, log)
  | m :: ms, Result, log =>
    if Result then
      startLoop mode ms (Result && m.OnStartPlayer mode) (log ++ [Event.ManagerOnStartPlayer m.id mode])
    else (Result, log)

/-- The manager loop of `StopPlayer`: `for (auto Mng : Managers) Mng->OnStopPlayer()`. -/
def stopLoop : List Manager → List Event → List Event
  | [], log => log
  | m :: ms, log => stopLoop ms (log ++ [Event.ManagerOnStopPlayer m.id])

/-! ## Single-precision values -/

/-- Number of low bits of the natural number `a` that a 24-bit significand cannot keep:
0 below 2^24, one more for each further doubling. The first argument bounds the search. -/
def droppedBits : Nat → Nat → Nat
  | 0, _ => 0
  | fuel + 1, a => if a < 2 ^ 24 then 0 else 1 + droppedBits fuel (a / 2)

/-- The single-precision float nearest to the natural number `a`, ties to the even
significand, as IEEE 754 conversion and arithmetic round. -/
def roundToSingle (a : Nat) : Nat :=
  let e := droppedBits 128 a
  let q := a / 2 ^ e
  let r := a % 2 ^ e
  let up := decide (2 ^ e < 2 * r) || (decide (2 * r = 2 ^ e) && decide (q % 2 = 1))
  (if up then q + 1 else q) * 2 ^ e

/-- The single-precision float nearest to an integer: what the assignment of a 32-bit
integer to a float component stores, and what a float sum of whole numbers yields. -/
def toSingle (x : Int) : Int :=
  if x < 0 then -((roundToSingle x.natAbs : Nat) : Int) else ((roundToSingle x.natAbs : Nat) : Int)

/-! ## StartPlayer -/

/-- The geometry computed at the head of the separate-window placement:
client size, screen position and auto-centre policy of the window to build. Under
auto-placement the integer calibration and display values are assigned to float components;
otherwise the configured vectors are copied. -/
def separateWindowGeometry (env : Environment) : FVector2D × FVector2D × EAutoCenter :=
  let AutoCenter := env.HoloPlayWindowSettings.WindowAutoCenter
  if env.HoloPlayWindowSettings.bAutoPlacementInHoloPlay then
    (⟨toSingle env.CalibrationSettings.ScreenWidth, toSingle env.CalibrationSettings.ScreenHeight⟩,
     ⟨toSingle env.DisplaySettings.LKGxpos, toSingle env.DisplaySettings.LKGypos⟩,
     EAutoCenter.None)
  else
    (env.HoloPlayWindowSettings.ClientSize, env.HoloPlayWindowSettings.ScreenPosition, AutoCenter)

/-- The body of `case PlayMode_InSeparateWindow` in `StartPlayer`. The host is taken to
realise a requested window mode at once, so `GetWindowMode` differs from the requested mode
exactly when fullscreen was requested and windowed fullscreen was set first. -/
def placeSeparateWindow (env : Environment) (s : State) : State :=
  let ws := env.HoloPlayWindowSettings
  let bUseBorderlessWindow := ws.bUseBorderlessWindow
  let WinMode := ws.WindowType
  let ClientSize := (separateWindowGeometry env).1
  let ScreenPosition := (separateWindowGeometry env).2.1
  let AutoCenter := (separateWindowGeometry env).2.2
  let wid := s.host.nextId
  let vid := s.host.nextId + 1
  -- 1. add the window, 3. show it or register it with the off-screen renderer
  let shown := if s.host.bRenderingOffScreen then Event.CreateViewport wid else Event.ShowWindow wid
  -- 2. a fullscreen request is first applied as windowed fullscreen
  let firstMode := if WinMode = EWindowMode.Fullscreen then EWindowMode.WindowedFullscreen else WinMode
  -- 5. the surface, and the second mode change when the realised mode differs
  let RenderDirectlyToWindowInSeparateWindow :=
    if (!ws.bUseOSWindowBorder && !bUseBorderlessWindow) then false
    else ws.RenderDirectlyToWindowInSeparateWindow
  let reshaped := if WinMode ≠ firstMode then [Event.ReshapeWindow wid ScreenPosition ClientSize] else []
  let w : SWindow :=
    { id := wid
      ClientSize := ClientSize
      ScreenPosition := ScreenPosition
      AutoCenter := AutoCenter
      SaneWindowPlacement := decide (AutoCenter = EAutoCenter.None)
      UseOSWindowBorder := ws.bUseOSWindowBorder
      CreateTitleBar := !bUseBorderlessWindow
      WindowMode := WinMode
      Content := some vid
      bOnWindowClosedSet := true }
  { s with
    bIsDestroyWindowRequested := false
    HoloPlayWindow := some w
    HoloPlayViewport := some { id := vid, bRenderDirectlyToWindow := RenderDirectlyToWindowInSeparateWindow }
    bOnWindowClosedBound := true
    host := { s.host with SlateWindows := s.host.SlateWindows ++ [wid], nextId := s.host.nextId + 2 }
    log := s.log ++ [Event.AddWindow wid, shown] ++ reshaped }

/-- The reshaping of the existing game window under auto-placement in the main-viewport
placement: the direct-to-window flag and the host calls made. -/
def mainViewportAutoPlacement (env : Environment) (s : State) : Bool × List Event :=
  let bRenderDirectlyToWindow := !s.host.GIsEditor
  let ClientSize : FVector2D :=
    ⟨toSingle env.CalibrationSettings.ScreenWidth, toSingle env.CalibrationSettings.ScreenHeight⟩
  let ScreenPosition : FVector2D :=
    ⟨toSingle env.DisplaySettings.LKGxpos, toSingle env.DisplaySettings.LKGypos⟩
  if s.host.WITH_EDITOR then
    if env.bMovieSceneCaptureRooted || s.bIsCaptureStandaloneMovie then (false, [])
    else if env.bEditorFloating then
      let Border := env.WindowBorderSize
      let pos : FVector2D :=
        ⟨toSingle (ScreenPosition.X - Border.Left), toSingle (ScreenPosition.Y - Border.Top)⟩
      let size : FVector2D :=
        ⟨toSingle (ClientSize.X + toSingle (Border.Left + Border.Right)),
         toSingle (ClientSize.Y + toSingle (Border.Top + Border.Bottom))⟩
      (bRenderDirectlyToWindow, [Event.ReshapeGameWindow pos size])
    else if s.bIsStandaloneGame || s.bIsGameMode then
      (bRenderDirectlyToWindow,
        [Event.RequestResolutionChange ClientSize, Event.ReshapeGameWindow ScreenPosition ClientSize])
    else (bRenderDirectlyToWindow, [])
  else
    (bRenderDirectlyToWindow,
      [Event.RequestResolutionChange ClientSize, Event.ReshapeGameWindow ScreenPosition ClientSize])

/-- The body of `case PlayMode_InMainViewport` in `StartPlayer`: nothing at all
when `GEngine->GameViewport` is null. -/
def placeMainViewport (env : Environment) (s : State) : State :=
  match s.host.GameViewport with
  | none => s
  | some gv =>
    let placed : Bool × List Event :=
      if env.HoloPlayWindowSettings.bAutoPlacementInHoloPlay then mainViewportAutoPlacement env s
      else (!s.host.GIsEditor, [])
    let vid := s.host.nextId
    { s with
      HoloPlayViewport := some { id := vid, bRenderDirectlyToWindow := placed.1 }
      host := { s.host with
        GameViewport := some
          { gv with
            bDisableWorldRendering := true
            ViewportWidgets := gv.ViewportWidgets ++ [vid]
            CloseRequestedHandlers := gv.CloseRequestedHandlers + 1 }
        nextId := s.host.nextId + 1 }
      log := s.log ++ placed.2 ++ [Event.AddViewportWidgetContent vid] }

/-- Embedding of `FHoloPlayRuntimeModule::StartPlayer`. -/
def StartPlayer (HoloPlayModeType : EHoloPlayModeType) (env : Environment) (s : State) : State :=
  if s.bIsPlaying = false then
    let s1 : State :=
      { s with
        CurrentHoloPlayModeType := HoloPlayModeType
        bLockInMainViewport := env.HoloPlayWindowSettings.bLockInMainViewport
        log := (startLoop HoloPlayModeType s.Managers true s.log).2 }
    match HoloPlayModeType with
    | EHoloPlayModeType.PlayMode_InSeparateWindow =>
      { placeSeparateWindow env s1 with bIsPlaying := true }
    | EHoloPlayModeType.PlayMode_InMainViewport =>
      { placeMainViewport env s1 with bIsPlaying := true }
    | EHoloPlayModeType.PlayMode_Other => s1
  else s

/-! ## StopPlayer -/

/-- The mode `StopPlayer` switches on: main viewport whenever the session is standalone,
a movie capture, or locked in the main viewport. -/
def teardownMode (s : State) : EHoloPlayModeType :=
  if s.bIsStandaloneGame || s.bIsCaptureStandaloneMovie || s.bLockInMainViewport then
    EHoloPlayModeType.PlayMode_InMainViewport
  else s.CurrentHoloPlayModeType

/-- The body of `case PlayMode_InMainViewport` in `StopPlayer`; `ToSharedRef` on a null
surface handle is a fault. -/
def teardownMainViewport (s : State) : Except Fault State :=
  match s.host.GameViewport with
  | none => .ok s
  | some gv =>
    match s.HoloPlayViewport with
    | none => .error Fault.nullHandle
    | some v =>
      .ok { s with
        HoloPlayViewport := none
        host := { s.host with
          GameViewport := some
            { gv with
              bDisableWorldRendering := false
              ViewportWidgets := gv.ViewportWidgets.erase v.id } }
        log := s.log ++ [Event.RemoveViewportWidgetContent v.id] }

/-- The state right after the destroy call on window `w` has been issued, before the
host reacts: the destroy-requested flag is set, the call is logged. -/
def issueDestroy (w : SWindow) (s : State) : State :=
  { s with
    bIsDestroyWindowRequested := true
    host := { s.host with SlateWindows := s.host.SlateWindows.erase w.id }
    log := s.log ++
      [if s.host.bSlateInitialized then Event.RequestDestroyWindow w.id
       else Event.DestroyWindowImmediately w.id] }

/-- The tail of the separate-window teardown, after the destroy call returned. -/
def releaseHandles (s : State) : State :=
  { s with bOnWindowClosedBound := false, HoloPlayViewport := none, HoloPlayWindow := none }

/-- The head of `StopPlayer`: `OnStopPlayer` on every manager. -/
def stopBroadcast (s : State) : State :=
  { s with log := stopLoop s.Managers s.log }

/-- Embedding of `FHoloPlayRuntimeModule::StopPlayer`. The destroy call may make the host fire the
window-closed delegate at once, which is `OnWindowClosed`, that is `StopPlayer` again;
the first argument bounds that nesting. -/
def StopPlayer : Nat → State → Except Fault State
  | 0, _ => .error Fault.outOfFuel
  | fuel + 1, s =>
    if s.bIsPlaying = true then
      let s1 : State := stopBroadcast s
      match teardownMode s1 with
      | EHoloPlayModeType.PlayMode_InSeparateWindow =>
        if s1.bIsDestroyWindowRequested = false then
          match s1.HoloPlayWindow with
          | none => .error Fault.nullHandle
          | some w =>
            let s2 := issueDestroy w s1
            let r : Except Fault State :=
              if s2.host.bCloseFiresSynchronously && w.bOnWindowClosedSet then StopPlayer fuel s2
              else .ok s2
            match r with
            | .error e => .error e
            | .ok s3 => .ok { releaseHandles s3 with bIsPlaying := false }
        else .ok { s1 with bIsPlaying := false }
      | EHoloPlayModeType.PlayMode_InMainViewport =>
        match teardownMainViewport s1 with
        | .error e => .error e
        | .ok s2 => .ok { s2 with bIsPlaying := false }
      | EHoloPlayModeType.PlayMode_Other => .ok s1
    else .ok s

/-- Embedding of `FHoloPlayRuntimeModule::RestartPlayer`: `StopPlayer(); StartPlayer(mode);`. -/
def RestartPlayer (fuel : Nat) (HoloPlayModeType : EHoloPlayModeType) (env : Environment)
    (s : State) : Except Fault State :=
  match StopPlayer fuel s with
  | .error e => .error e
  | .ok s1 => .ok (StartPlayer HoloPlayModeType env s1)

/-- Embedding of `FHoloPlayRuntimeModule::OnWindowClosed`. -/
def OnWindowClosed (fuel : Nat) (s : State) : Except Fault State :=
  StopPlayer fuel s

/-! ## Launch path -/

/-- Embedding of `FHoloPlayRuntimeModule::StartPlayerSeparateProccess`. -/
def StartPlayerSeparateProccess (args : LaunchArguments) (env : Environment) (s : State) : State :=
  let s0 : State := { s with bLockInMainViewport := env.HoloPlayWindowSettings.bLockInMainViewport }
  let LastExecutedPlayModeType :=
    if s0.bLockInMainViewport then EHoloPlayModeType.PlayMode_InMainViewport
    else env.HoloPlayWindowSettings.LastExecutedPlayModeType
  if s0.host.WITH_EDITOR then
    let s1 : State := { s0 with bIsStandaloneGame := args.bStandaloneSessionName }
    if s1.bIsStandaloneGame then StartPlayer EHoloPlayModeType.PlayMode_InMainViewport env s1
    else
      let s2 : State := { s1 with bIsCaptureStandaloneMovie := args.bCaptureManifest }
      if s2.bIsCaptureStandaloneMovie then StartPlayer EHoloPlayModeType.PlayMode_InMainViewport env s2
      else
        let s3 : State := { s2 with bIsGameMode := args.bGameSwitch }
        if s3.bIsGameMode then StartPlayer LastExecutedPlayModeType env s3
        else s3
  else StartPlayer LastExecutedPlayModeType env s0

/-- Embedding of `FHoloPlayRuntimeModule::OnPostEngineInit`, the part that concerns the module. -/
def OnPostEngineInit (s : State) : State :=
  InitAllManagers s

/-- Embedding of `FHoloPlayRuntimeModule::OnGameViewportCreated`. -/
def OnGameViewportCreated (args : LaunchArguments) (env : Environment) (s : State) : State :=
  if s.host.GIsEditor = false then
    if s.bSeparateProccessPlayerStarded = false then
      { StartPlayerSeparateProccess args env (InitAllManagers s) with
        bSeparateProccessPlayerStarded := true }
    else s
  else s

/-! ## Observations on states and logs -/

/-- The managers whose `Init` a first `InitAllManagers` reaches: the registry up to and
including the first manager whose `Init` fails. -/
def upToFirstFailure : List Manager → List Manager
  | [] => []
  | m :: ms => if m.Init then m :: upToFirstFailure ms else [m]

/-- How often `Init` of manager `m` appears in a log. -/
def initCalls (m : Nat) (log : List Event) : Nat :=
  log.count (Event.ManagerInit m)

/-- A placement call on the host: a window added, or a surface added to the main viewport. -/
def Event.isPlacement : Event → Bool
  | Event.AddWindow _ => true
  | Event.AddViewportWidgetContent _ => true
  | _ => false

/-- A teardown call on the host: a window destroy call, or a surface removed from the
main viewport. -/
def Event.isTeardown : Event → Bool
  | Event.RequestDestroyWindow _ => true
  | Event.DestroyWindowImmediately _ => true
  | Event.RemoveViewportWidgetContent _ => true
  | _ => false

/-- A destroy call on window `w`. -/
def Event.isDestroyOf (w : Nat) : Event → Bool
  | Event.RequestDestroyWindow x => decide (x = w)
  | Event.DestroyWindowImmediately x => decide (x = w)
  | _ => false

/-- A destroy call on any window. -/
def Event.isDestroy : Event → Bool
  | Event.RequestDestroyWindow _ => true
  | Event.DestroyWindowImmediately _ => true
  | _ => false

/-- Number of placement calls in a log. -/
def placementCount (log : List Event) : Nat := log.countP Event.isPlacement

/-- Number of teardown calls in a log. -/
def teardownCount (log : List Event) : Nat := log.countP Event.isTeardown

/-- Number of destroy calls on window `w` in a log. -/
def destroyCount (w : Nat) (log : List Event) : Nat := log.countP (Event.isDestroyOf w)

/-- The separate-window artifact: the window handle is set. -/
def hasWindow (s : State) : Bool := s.HoloPlayWindow.isSome

/-- The main-viewport artifact: the surface the module holds is among the widgets of
the game viewport. -/
def overlayAttached (s : State) : Bool :=
  match s.host.GameViewport, s.HoloPlayViewport with
  | some gv, some v => decide (v.id ∈ gv.ViewportWidgets)
  | _, _ => false

/-- Exactly one of the two presentation artifacts exists. -/
def exactlyOneArtifact (s : State) : Bool := xor (hasWindow s) (overlayAttached s)

/-- A removal of a surface from the game viewport. -/
def Event.isOverlayRemoval : Event → Bool
  | Event.RemoveViewportWidgetContent _ => true
  | _ => false

/-- The states `s` and `t` belong to the same session: same registry, mode, session flags and
host switches, and a game viewport exists in both or in neither. -/
def sameSession (s t : State) : Prop :=
  t.Managers = s.Managers
  ∧ t.CurrentHoloPlayModeType = s.CurrentHoloPlayModeType
  ∧ t.bLockInMainViewport = s.bLockInMainViewport
  ∧ t.bIsStandaloneGame = s.bIsStandaloneGame
  ∧ t.bIsCaptureStandaloneMovie = s.bIsCaptureStandaloneMovie
  ∧ t.bIsGameMode = s.bIsGameMode
  ∧ t.host.bCloseFiresSynchronously = s.host.bCloseFiresSynchronously
  ∧ t.host.bSlateInitialized = s.host.bSlateInitialized
  ∧ t.host.GameViewport.isSome = s.host.GameViewport.isSome

/-- Going from `s` to `t`, `StopPlayer` ran the main-viewport teardown and nothing of the
separate-window one: the window handle, the destroy-requested flag and the windows of the
host are as before and no destroy call was made; where a game viewport exists, world
rendering is enabled again, the surface is removed from its widgets and the surface handle
is reset; where none exists, host and surface handle are as before. -/
def ranMainViewportTeardown (s t : State) : Prop :=
  t.bIsPlaying = false
  ∧ t.HoloPlayWindow = s.HoloPlayWindow
  ∧ t.bIsDestroyWindowRequested = s.bIsDestroyWindowRequested
  ∧ t.host.SlateWindows = s.host.SlateWindows
  ∧ t.log.countP Event.isDestroy = s.log.countP Event.isDestroy
  ∧ (∀ gv, s.host.GameViewport = some gv →
      ∃ v, s.HoloPlayViewport = some v
        ∧ t.host.GameViewport = some
            { gv with bDisableWorldRendering := false
                      ViewportWidgets := gv.ViewportWidgets.erase v.id }
        ∧ t.HoloPlayViewport = none
        ∧ t.log = (stopBroadcast s).log ++ [Event.RemoveViewportWidgetContent v.id])
  ∧ (s.host.GameViewport = none →
      t.host = s.host ∧ t.HoloPlayViewport = s.HoloPlayViewport ∧ t.log = (stopBroadcast s).log)
  ∧ placementCount t.log = placementCount s.log
  ∧ sameSession s t

/-- Going from `s` to `t`, `StopPlayer` ran the separate-window teardown and nothing of the
main-viewport one: the window `s` held received one destroy call and left the windows of
the host, both handles are released, the destroy-requested flag is set; the game viewport
is as before and no surface was removed from it. -/
def ranSeparateWindowTeardown (s t : State) : Prop :=
  t.bIsPlaying = false
  ∧ (∃ w, s.HoloPlayWindow = some w
      ∧ destroyCount w.id t.log = destroyCount w.id s.log + 1
      ∧ t.host.SlateWindows = s.host.SlateWindows.erase w.id)
  ∧ t.log.countP Event.isDestroy = s.log.countP Event.isDestroy + 1
  ∧ t.HoloPlayWindow = none
  ∧ t.HoloPlayViewport = none
  ∧ t.bIsDestroyWindowRequested = true
  ∧ t.host.GameViewport = s.host.GameViewport
  ∧ t.log.countP Event.isOverlayRemoval = s.log.countP Event.isOverlayRemoval
  ∧ placementCount t.log = placementCount s.log
  ∧ sameSession s t

/-! ## Call sequences -/

/-- A call on the player from outside. -/
inductive Call
  | Start (mode : EHoloPlayModeType) (env : Environment)
  | Stop
  | Restart (mode : EHoloPlayModeType) (env : Environment)

/-- One call applied to a state. -/
def Call.apply (fuel : Nat) : Call → State → Except Fault State
  | Call.Start mode env, s => .ok (StartPlayer mode env s)
  | Call.Stop, s => StopPlayer fuel s
  | Call.Restart mode env, s => RestartPlayer fuel mode env s

/-- A sequence of calls applied in order. -/
def run (fuel : Nat) : List Call → State → Except Fault State
  | [], s => .ok s
  | c :: cs, s =>
    match c.apply fuel s with
    | .error e => .error e
    | .ok s1 => run fuel cs s1

/-- The call is `StopPlayer()`, or `StartPlayer(mode)` with one of the two play modes. -/
def Call.isStartStop : Call → Bool
  | Call.Start EHoloPlayModeType.PlayMode_InSeparateWindow _ => true
  | Call.Start EHoloPlayModeType.PlayMode_InMainViewport _ => true
  | Call.Stop => true
  | _ => false

/-- The call is a `StartPlayer`. -/
def Call.isStart : Call → Bool
  | Call.Start _ _ => true
  | _ => false

/-- The call reads a configuration with the lock-in-main-viewport flag set. -/
def Call.locks : Call → Bool
  | Call.Start _ env => env.HoloPlayWindowSettings.bLockInMainViewport
  | Call.Restart _ env => env.HoloPlayWindowSettings.bLockInMainViewport
  | Call.Stop => false

/-- The Start-minus-Stop counter, clamped to 0 and 1 after each call. -/
def clampedCounter : Nat → List Call → Nat
  | c, [] => c
  | c, Call.Start _ _ :: cs => clampedCounter (min (c + 1) 1) cs
  | c, Call.Stop :: cs => clampedCounter (c - 1) cs
  | c, Call.Restart _ _ :: cs => clampedCounter (min ((c - 1) + 1) 1) cs

/-- Number of Idle to Playing transitions of the two-state machine Idle/Playing over a
sequence of Start and Stop calls, from the given state. -/
def idleToPlaying : Bool → List Call → Nat
  | _, [] => 0
  | playing, Call.Start _ _ :: cs => (if playing then 0 else 1) + idleToPlaying true cs
  | _, Call.Stop :: cs => idleToPlaying false cs
  | _, Call.Restart _ _ :: cs => 1 + idleToPlaying true cs

/-- Number of Playing to Idle transitions, likewise. -/
def playingToIdle : Bool → List Call → Nat
  | _, [] => 0
  | _, Call.Start _ _ :: cs => playingToIdle true cs
  | playing, Call.Stop :: cs => (if playing then 1 else 0) + playingToIdle false cs
  | playing, Call.Restart _ _ :: cs => (if playing then 1 else 0) + playingToIdle true cs

/-- The sequence is non-empty and its last call is a `StartPlayer`. -/
def lastIsStart (calls : List Call) : Bool :=
  match calls.getLast? with
  | some c => c.isStart
  | none => false

/-- What holds of every state the calls can reach while the game viewport neither appears
nor disappears: a playing separate-window session holds its window and has not asked for
its destruction, a playing session holds a surface whenever a game viewport exists, and the
mode of a playing session is one of the two play modes. -/
structure WellFormed (s : State) : Prop where
  window : s.bIsPlaying = true →
    s.CurrentHoloPlayModeType = EHoloPlayModeType.PlayMode_InSeparateWindow →
    s.bIsDestroyWindowRequested = false ∧ s.HoloPlayWindow.isSome = true
  surface : s.bIsPlaying = true → s.host.GameViewport.isSome = true →
    s.HoloPlayViewport.isSome = true
  mode : s.bIsPlaying = true → s.CurrentHoloPlayModeType ≠ EHoloPlayModeType.PlayMode_Other

/-- What holds of every state reached, on a host with a game viewport, by a session that is
neither standalone, nor a movie capture, nor locked in the main viewport: when not playing
there is no window handle and no surface among the widgets of the game viewport; a playing
separate-window session holds its window and its surface and the game viewport has no
widget; a playing main-viewport session holds no window and its surface is the one widget
of the game viewport. -/
structure SingleArtifact (s : State) : Prop where
  standalone : s.bIsStandaloneGame = false
  capture : s.bIsCaptureStandaloneMovie = false
  lock : s.bLockInMainViewport = false
  idle : s.bIsPlaying = false →
    s.HoloPlayWindow = none ∧ ∃ gv, s.host.GameViewport = some gv ∧ gv.ViewportWidgets = []
  separate : s.bIsPlaying = true →
    s.CurrentHoloPlayModeType = EHoloPlayModeType.PlayMode_InSeparateWindow →
    s.bIsDestroyWindowRequested = false ∧ s.HoloPlayWindow.isSome = true
    ∧ s.HoloPlayViewport.isSome = true
    ∧ ∃ gv, s.host.GameViewport = some gv ∧ gv.ViewportWidgets = []
  main : s.bIsPlaying = true →
    s.CurrentHoloPlayModeType = EHoloPlayModeType.PlayMode_InMainViewport →
    s.HoloPlayWindow = none
    ∧ ∃ gv v, s.host.GameViewport = some gv ∧ s.HoloPlayViewport = some v
        ∧ gv.ViewportWidgets = [v.id]
  mode : s.bIsPlaying = true → s.CurrentHoloPlayModeType ≠ EHoloPlayModeType.PlayMode_Other

/-! ## Sample inputs -/

/-- A host with a primary game viewport and a live Slate application, outside the editor. -/
def Host.withViewport : Host :=
  { GameViewport := some { bDisableWorldRendering := false, ViewportWidgets := [], CloseRequestedHandlers := 0 }
    SlateWindows := []
    bSlateInitialized := true
    bRenderingOffScreen := false
    bCloseFiresSynchronously := false
    GIsEditor := false
    WITH_EDITOR := true
    nextId := 0 }

/-- The same host before any primary game viewport exists. -/
def Host.withoutViewport : Host :=
  { Host.withViewport with GameViewport := none }

/-- The same host, firing the window-closed delegate from inside the destroy call. -/
def Host.synchronousClose : Host :=
  { Host.withViewport with bCloseFiresSynchronously := true }

/-- A configuration with configured geometry 800x600 at (50,50), no auto-placement,
no lock, and calibration 1536x2048 at (100,0). -/
def Environment.configured : Environment :=
  { HoloPlayWindowSettings :=
      { bLockInMainViewport := false
        bUseBorderlessWindow := true
        WindowType := EWindowMode.Windowed
        WindowAutoCenter := EAutoCenter.PreferredWorkArea
        bAutoPlacementInHoloPlay := false
        ClientSize := ⟨800, 600⟩
        ScreenPosition := ⟨50, 50⟩
        bUseOSWindowBorder := false
        RenderDirectlyToWindowInSeparateWindow := false
        LastExecutedPlayModeType := EHoloPlayModeType.PlayMode_InSeparateWindow }
    CalibrationSettings := { ScreenWidth := 1536, ScreenHeight := 2048 }
    DisplaySettings := { LKGxpos := 100, LKGypos := 0 }
    bMovieSceneCaptureRooted := false
    bEditorFloating := false
    WindowBorderSize := ⟨0, 0, 0, 0⟩ }

/-- The same configuration with auto-placement switched on. -/
def Environment.autoPlaced : Environment :=
  { Environment.configured with
    HoloPlayWindowSettings :=
      { Environment.configured.HoloPlayWindowSettings with bAutoPlacementInHoloPlay := true } }

/-- Auto-placement with a calibration width of 2^24 + 1, which no single-precision float
holds. -/
def Environment.wideCalibration : Environment :=
  { Environment.autoPlaced with
    CalibrationSettings := { ScreenWidth := 16777217, ScreenHeight := 2048 } }

/-- The same configuration with the lock-in-main-viewport flag switched on. -/
def Environment.locked : Environment :=
  { Environment.configured with
    HoloPlayWindowSettings :=
      { Environment.configured.HoloPlayWindowSettings with bLockInMainViewport := true } }

/-- A manager whose calls all succeed. -/
def Manager.succeeding (id : Nat) : Manager :=
  { id := id, Init := true, OnStartPlayer := fun _ => true }

/-- A manager whose `Init` fails. -/
def Manager.failingInit (id : Nat) : Manager :=
  { id := id, Init := false, OnStartPlayer := fun _ => true }

/-- The Idle state of a module whose registry holds the given managers. -/
def State.idleWith (host : Host) (ms : List Manager) : State :=
  { State.initial host with Managers := ms }

/-! ## Theorems -/

/-! ### The manager loops -/

theorem releaseLoop_eq (ms : List Manager) (log : List Event) :
    releaseLoop ms log = log ++ ms.map (fun m => Event.ManagerRelease m.id) := by
  induction ms generalizing log with
  | nil => simp [releaseLoop]
  | cons m ms ih => simp [releaseLoop, ih]

theorem initLoop_eq (ms : List Manager) (log : List Event) :
    (initLoop ms true log).2 = log ++ (upToFirstFailure ms).map (fun m => Event.ManagerInit m.id) := by
  induction ms generalizing log with
  | nil => simp [initLoop, upToFirstFailure]
  | cons m ms ih =>
    cases hm : m.Init with
    | true => simp [initLoop, upToFirstFailure, hm, ih]
    | false =>
      cases ms with
      | nil => simp [initLoop, upToFirstFailure, hm]
      | cons m2 ms2 => simp [initLoop, upToFirstFailure, hm]

/-! ### What the placements leave alone -/

theorem placeMainViewport_frame (env : Environment) (s : State) :
    (placeMainViewport env s).Managers = s.Managers
    ∧ (placeMainViewport env s).bIsPlaying = s.bIsPlaying
    ∧ (placeMainViewport env s).CurrentHoloPlayModeType = s.CurrentHoloPlayModeType
    ∧ (placeMainViewport env s).bLockInMainViewport = s.bLockInMainViewport
    ∧ (placeMainViewport env s).bIsDestroyWindowRequested = s.bIsDestroyWindowRequested
    ∧ (placeMainViewport env s).bIsStandaloneGame = s.bIsStandaloneGame
    ∧ (placeMainViewport env s).bIsCaptureStandaloneMovie = s.bIsCaptureStandaloneMovie
    ∧ (placeMainViewport env s).bIsGameMode = s.bIsGameMode
    ∧ (placeMainViewport env s).HoloPlayWindow = s.HoloPlayWindow
    ∧ (placeMainViewport env s).host.bCloseFiresSynchronously = s.host.bCloseFiresSynchronously
    ∧ (placeMainViewport env s).host.SlateWindows = s.host.SlateWindows := by
  unfold placeMainViewport
  cases s.host.GameViewport <;> simp

theorem placeSeparateWindow_frame (env : Environment) (s : State) :
    (placeSeparateWindow env s).Managers = s.Managers
    ∧ (placeSeparateWindow env s).bIsPlaying = s.bIsPlaying
    ∧ (placeSeparateWindow env s).CurrentHoloPlayModeType = s.CurrentHoloPlayModeType
    ∧ (placeSeparateWindow env s).bLockInMainViewport = s.bLockInMainViewport
    ∧ (placeSeparateWindow env s).bIsDestroyWindowRequested = false
    ∧ (placeSeparateWindow env s).bIsStandaloneGame = s.bIsStandaloneGame
    ∧ (placeSeparateWindow env s).bIsCaptureStandaloneMovie = s.bIsCaptureStandaloneMovie
    ∧ (placeSeparateWindow env s).bIsGameMode = s.bIsGameMode
    ∧ (placeSeparateWindow env s).host.GameViewport = s.host.GameViewport
    ∧ (placeSeparateWindow env s).host.bCloseFiresSynchronously = s.host.bCloseFiresSynchronously := by
  simp [placeSeparateWindow]

@[simp]
theorem placeMainViewport_mode (env : Environment) (s : State) :
    (placeMainViewport env s).CurrentHoloPlayModeType = s.CurrentHoloPlayModeType :=
  (placeMainViewport_frame env s).2.2.1

@[simp]
theorem placeMainViewport_standalone (env : Environment) (s : State) :
    (placeMainViewport env s).bIsStandaloneGame = s.bIsStandaloneGame :=
  (placeMainViewport_frame env s).2.2.2.2.2.1

@[simp]
theorem placeMainViewport_capture (env : Environment) (s : State) :
    (placeMainViewport env s).bIsCaptureStandaloneMovie = s.bIsCaptureStandaloneMovie :=
  (placeMainViewport_frame env s).2.2.2.2.2.2.1

@[simp]
theorem placeMainViewport_lock (env : Environment) (s : State) :
    (placeMainViewport env s).bLockInMainViewport = s.bLockInMainViewport :=
  (placeMainViewport_frame env s).2.2.2.1

@[simp]
theorem placeMainViewport_window (env : Environment) (s : State) :
    (placeMainViewport env s).HoloPlayWindow = s.HoloPlayWindow :=
  (placeMainViewport_frame env s).2.2.2.2.2.2.2.2.1

@[simp]
theorem placeMainViewport_destroyRequested (env : Environment) (s : State) :
    (placeMainViewport env s).bIsDestroyWindowRequested = s.bIsDestroyWindowRequested :=
  (placeMainViewport_frame env s).2.2.2.2.1

@[simp]
theorem placeMainViewport_managers (env : Environment) (s : State) :
    (placeMainViewport env s).Managers = s.Managers :=
  (placeMainViewport_frame env s).1

@[simp]
theorem placeMainViewport_closeFires (env : Environment) (s : State) :
    (placeMainViewport env s).host.bCloseFiresSynchronously = s.host.bCloseFiresSynchronously :=
  (placeMainViewport_frame env s).2.2.2.2.2.2.2.2.2.1

@[simp]
theorem placeSeparateWindow_mode (env : Environment) (s : State) :
    (placeSeparateWindow env s).CurrentHoloPlayModeType = s.CurrentHoloPlayModeType := rfl

@[simp]
theorem placeSeparateWindow_standalone (env : Environment) (s : State) :
    (placeSeparateWindow env s).bIsStandaloneGame = s.bIsStandaloneGame := rfl

@[simp]
theorem placeSeparateWindow_capture (env : Environment) (s : State) :
    (placeSeparateWindow env s).bIsCaptureStandaloneMovie = s.bIsCaptureStandaloneMovie := rfl

@[simp]
theorem placeSeparateWindow_lock (env : Environment) (s : State) :
    (placeSeparateWindow env s).bLockInMainViewport = s.bLockInMainViewport := rfl

@[simp]
theorem placeSeparateWindow_destroyRequested (env : Environment) (s : State) :
    (placeSeparateWindow env s).bIsDestroyWindowRequested = false := rfl

@[simp]
theorem placeSeparateWindow_managers (env : Environment) (s : State) :
    (placeSeparateWindow env s).Managers = s.Managers := rfl

@[simp]
theorem placeSeparateWindow_gameViewport (env : Environment) (s : State) :
    (placeSeparateWindow env s).host.GameViewport = s.host.GameViewport := rfl

@[simp]
theorem placeSeparateWindow_closeFires (env : Environment) (s : State) :
    (placeSeparateWindow env s).host.bCloseFiresSynchronously = s.host.bCloseFiresSynchronously := rfl

/-! ### StopPlayer, case by case -/

theorem StopPlayer_idle (n : Nat) (s : State) (h : s.bIsPlaying = false) :
    StopPlayer (n + 1) s = .ok s := by
  simp [StopPlayer, h]

theorem StopPlayer_mainViewport (n : Nat) (s : State) (hp : s.bIsPlaying = true)
    (hm : teardownMode s = EHoloPlayModeType.PlayMode_InMainViewport) :
    StopPlayer (n + 1) s =
      match teardownMainViewport (stopBroadcast s) with
      | .error e => .error e
      | .ok s2 => .ok { s2 with bIsPlaying := false } := by
  have hm1 : teardownMode (stopBroadcast s) = EHoloPlayModeType.PlayMode_InMainViewport := hm
  simp only [StopPlayer, hp, if_true, hm1]

theorem StopPlayer_requested (n : Nat) (s : State) (hp : s.bIsPlaying = true)
    (hm : teardownMode s = EHoloPlayModeType.PlayMode_InSeparateWindow)
    (hf : s.bIsDestroyWindowRequested = true) :
    StopPlayer (n + 1) s = .ok { stopBroadcast s with bIsPlaying := false } := by
  have hm1 : teardownMode (stopBroadcast s) = EHoloPlayModeType.PlayMode_InSeparateWindow := hm
  have hf1 : (stopBroadcast s).bIsDestroyWindowRequested = true := hf
  simp [StopPlayer, hp, hm1, hf1]

theorem StopPlayer_separateWindow (n : Nat) (s : State) (w : SWindow)
    (hp : s.bIsPlaying = true)
    (hm : teardownMode s = EHoloPlayModeType.PlayMode_InSeparateWindow)
    (hf : s.bIsDestroyWindowRequested = false) (hw : s.HoloPlayWindow = some w) :
    StopPlayer (n + 2) s =
      .ok { releaseHandles
              (if s.host.bCloseFiresSynchronously && w.bOnWindowClosedSet then
                { stopBroadcast (issueDestroy w (stopBroadcast s)) with bIsPlaying := false }
               else issueDestroy w (stopBroadcast s)) with bIsPlaying := false } := by
  have hm1 : teardownMode (stopBroadcast s) = EHoloPlayModeType.PlayMode_InSeparateWindow := hm
  have hf1 : (stopBroadcast s).bIsDestroyWindowRequested = false := hf
  have hw1 : (stopBroadcast s).HoloPlayWindow = some w := hw
  have hnested : StopPlayer (n + 1) (issueDestroy w (stopBroadcast s)) =
      .ok { stopBroadcast (issueDestroy w (stopBroadcast s)) with bIsPlaying := false } :=
    StopPlayer_requested n _ hp hm rfl
  have hc : (issueDestroy w (stopBroadcast s)).host.bCloseFiresSynchronously
      = s.host.bCloseFiresSynchronously := rfl
  rw [StopPlayer]
  simp only [hp, if_true, hm1, hf1, hw1, hc]
  by_cases hcond : (s.host.bCloseFiresSynchronously && w.bOnWindowClosedSet) = true
  · simp only [hcond, if_true, hnested]
  · simp only [hcond, if_false]
    simp

/-! ### The manager broadcasts make no host call -/

theorem countP_stopLoop (p : Event → Bool) (hp : ∀ m, p (Event.ManagerOnStopPlayer m) = false)
    (ms : List Manager) (log : List Event) :
    (stopLoop ms log).countP p = log.countP p := by
  induction ms generalizing log with
  | nil => rfl
  | cons m ms ih => simp [stopLoop, ih, List.countP_append, hp]

theorem countP_startLoop (p : Event → Bool)
    (hp : ∀ m mode, p (Event.ManagerOnStartPlayer m mode) = false)
    (mode : EHoloPlayModeType) (ms : List Manager) (r : Bool) (log : List Event) :
    ((startLoop mode ms r log).2).countP p = log.countP p := by
  induction ms generalizing r log with
  | nil => rfl
  | cons m ms ih =>
    cases r with
    | true => simp [startLoop, ih, List.countP_append, hp]
    | false => simp [startLoop]

theorem destroyCount_stopBroadcast (w : Nat) (s : State) :
    destroyCount w (stopBroadcast s).log = destroyCount w s.log :=
  countP_stopLoop _ (fun _ => rfl) _ _

theorem isDestroy_stopBroadcast (s : State) :
    (stopBroadcast s).log.countP Event.isDestroy = s.log.countP Event.isDestroy :=
  countP_stopLoop _ (fun _ => rfl) _ _

theorem teardownCount_stopBroadcast (s : State) :
    teardownCount (stopBroadcast s).log = teardownCount s.log :=
  countP_stopLoop _ (fun _ => rfl) _ _

theorem placementCount_stopBroadcast (s : State) :
    placementCount (stopBroadcast s).log = placementCount s.log :=
  countP_stopLoop _ (fun _ => rfl) _ _

theorem destroyCount_issueDestroy (w : SWindow) (s : State) :
    destroyCount w.id (issueDestroy w s).log = destroyCount w.id s.log + 1 := by
  unfold destroyCount issueDestroy
  cases s.host.bSlateInitialized <;> simp [List.countP_append, Event.isDestroyOf]

theorem isDestroy_issueDestroy (w : SWindow) (s : State) :
    (issueDestroy w s).log.countP Event.isDestroy = s.log.countP Event.isDestroy + 1 := by
  unfold issueDestroy
  cases s.host.bSlateInitialized <;> simp [List.countP_append, Event.isDestroy]

theorem teardownCount_issueDestroy (w : SWindow) (s : State) :
    teardownCount (issueDestroy w s).log = teardownCount s.log + 1 := by
  unfold teardownCount issueDestroy
  cases s.host.bSlateInitialized <;> simp [List.countP_append, Event.isTeardown]

theorem placementCount_issueDestroy (w : SWindow) (s : State) :
    placementCount (issueDestroy w s).log = placementCount s.log := by
  unfold placementCount issueDestroy
  cases s.host.bSlateInitialized <;> simp [List.countP_append, Event.isPlacement]

theorem overlayRemoval_stopBroadcast (s : State) :
    (stopBroadcast s).log.countP Event.isOverlayRemoval = s.log.countP Event.isOverlayRemoval :=
  countP_stopLoop _ (fun _ => rfl) _ _

theorem overlayRemoval_issueDestroy (w : SWindow) (s : State) :
    (issueDestroy w s).log.countP Event.isOverlayRemoval
      = s.log.countP Event.isOverlayRemoval := by
  unfold issueDestroy
  cases s.host.bSlateInitialized <;> simp [List.countP_append, Event.isOverlayRemoval]

/-! ### StopPlayer, effect by effect -/

theorem StopPlayer_ranMainViewportTeardown (n : Nat) (s : State) (hp : s.bIsPlaying = true)
    (hm : teardownMode s = EHoloPlayModeType.PlayMode_InMainViewport)
    (hv : s.host.GameViewport.isSome = true → s.HoloPlayViewport.isSome = true) :
    ∃ t, StopPlayer (n + 1) s = .ok t ∧ ranMainViewportTeardown s t := by
  rw [StopPlayer_mainViewport n s hp hm]
  have hd := isDestroy_stopBroadcast s
  cases hg : s.host.GameViewport with
  | none =>
    have ht : teardownMainViewport (stopBroadcast s) = .ok (stopBroadcast s) := by
      simp [teardownMainViewport, stopBroadcast, hg]
    rw [ht]
    refine ⟨_, rfl, rfl, rfl, rfl, rfl, hd, ?_, ?_, placementCount_stopBroadcast s,
      ⟨rfl, rfl, rfl, rfl, rfl, rfl, rfl, rfl, rfl⟩⟩
    · intro gv hgv; rw [hg] at hgv; cases hgv
    · intro _; exact ⟨rfl, rfl, rfl⟩
  | some gv =>
    cases hs : s.HoloPlayViewport with
    | none => simp [hg, hs] at hv
    | some v =>
      have ht : teardownMainViewport (stopBroadcast s) = .ok
          { stopBroadcast s with
            HoloPlayViewport := none
            host := { s.host with
              GameViewport := some
                { gv with
                  bDisableWorldRendering := false
                  ViewportWidgets := gv.ViewportWidgets.erase v.id } }
            log := (stopBroadcast s).log ++ [Event.RemoveViewportWidgetContent v.id] } := by
        simp [teardownMainViewport, stopBroadcast, hg, hs]
      rw [ht]
      refine ⟨_, rfl, rfl, rfl, rfl, rfl, ?_, ?_, ?_, ?_,
        ⟨rfl, rfl, rfl, rfl, rfl, rfl, rfl, rfl, by rw [hg]; rfl⟩⟩
      · simp [List.countP_append, Event.isDestroy, hd]
      · intro gv2 hgv
        rw [hg] at hgv
        cases hgv
        exact ⟨v, hs, rfl, rfl, rfl⟩
      · intro h; rw [hg] at h; cases h
      · have hpl := placementCount_stopBroadcast s
        simp only [placementCount] at hpl ⊢
        simp [List.countP_append, Event.isPlacement, hpl]

theorem StopPlayer_ranSeparateWindowTeardown (n : Nat) (s : State) (w : SWindow)
    (hp : s.bIsPlaying = true)
    (hm : teardownMode s = EHoloPlayModeType.PlayMode_InSeparateWindow)
    (hf : s.bIsDestroyWindowRequested = false) (hw : s.HoloPlayWindow = some w) :
    ∃ t, StopPlayer (n + 2) s = .ok t ∧ ranSeparateWindowTeardown s t := by
  refine ⟨_, StopPlayer_separateWindow n s w hp hm hf hw, rfl, ⟨w, hw, ?_, ?_⟩, ?_, rfl, rfl,
    ?_, ?_, ?_, ?_, ?_⟩
  all_goals
    by_cases hcond : (s.host.bCloseFiresSynchronously && w.bOnWindowClosedSet) = true
  all_goals simp only [hcond, if_true, if_false, releaseHandles]
  · show destroyCount w.id (stopBroadcast (issueDestroy w (stopBroadcast s))).log = _
    rw [destroyCount_stopBroadcast, destroyCount_issueDestroy, destroyCount_stopBroadcast]
  · show destroyCount w.id (issueDestroy w (stopBroadcast s)).log = _
    rw [destroyCount_issueDestroy, destroyCount_stopBroadcast]
  · rfl
  · rfl
  · show (stopBroadcast (issueDestroy w (stopBroadcast s))).log.countP Event.isDestroy = _
    rw [isDestroy_stopBroadcast, isDestroy_issueDestroy, isDestroy_stopBroadcast]
  · show (issueDestroy w (stopBroadcast s)).log.countP Event.isDestroy = _
    rw [isDestroy_issueDestroy, isDestroy_stopBroadcast]
  · rfl
  · rfl
  · rfl
  · rfl
  · show (stopBroadcast (issueDestroy w (stopBroadcast s))).log.countP Event.isOverlayRemoval = _
    rw [overlayRemoval_stopBroadcast, overlayRemoval_issueDestroy, overlayRemoval_stopBroadcast]
  · show (issueDestroy w (stopBroadcast s)).log.countP Event.isOverlayRemoval = _
    rw [overlayRemoval_issueDestroy, overlayRemoval_stopBroadcast]
  · show placementCount (stopBroadcast (issueDestroy w (stopBroadcast s))).log = _
    rw [placementCount_stopBroadcast, placementCount_issueDestroy, placementCount_stopBroadcast]
  · show placementCount (issueDestroy w (stopBroadcast s)).log = _
    rw [placementCount_issueDestroy, placementCount_stopBroadcast]
  · exact ⟨rfl, rfl, rfl, rfl, rfl, rfl, rfl, rfl, rfl⟩
  · exact ⟨rfl, rfl, rfl, rfl, rfl, rfl, rfl, rfl, rfl⟩

/-! ### StartPlayer, call by call -/

theorem placement_startLoop (mode : EHoloPlayModeType) (ms : List Manager) (log : List Event) :
    ((startLoop mode ms true log).2).countP Event.isPlacement = log.countP Event.isPlacement :=
  countP_startLoop _ (fun _ _ => rfl) _ _ _ _

theorem teardown_startLoop (mode : EHoloPlayModeType) (ms : List Manager) (log : List Event) :
    ((startLoop mode ms true log).2).countP Event.isTeardown = log.countP Event.isTeardown :=
  countP_startLoop _ (fun _ _ => rfl) _ _ _ _

theorem isDestroy_startLoop (mode : EHoloPlayModeType) (ms : List Manager) (log : List Event) :
    ((startLoop mode ms true log).2).countP Event.isDestroy = log.countP Event.isDestroy :=
  countP_startLoop _ (fun _ _ => rfl) _ _ _ _

theorem StartPlayer_playing (mode : EHoloPlayModeType) (env : Environment) (s : State)
    (h : s.bIsPlaying = true) : StartPlayer mode env s = s := by
  simp [StartPlayer, h]

theorem StartPlayer_separateWindow_counts (env : Environment) (s : State)
    (h : s.bIsPlaying = false) :
    placementCount (StartPlayer EHoloPlayModeType.PlayMode_InSeparateWindow env s).log
        = placementCount s.log + 1
    ∧ teardownCount (StartPlayer EHoloPlayModeType.PlayMode_InSeparateWindow env s).log
        = teardownCount s.log
    ∧ (StartPlayer EHoloPlayModeType.PlayMode_InSeparateWindow env s).log.countP Event.isDestroy
        = s.log.countP Event.isDestroy := by
  cases h1 : s.host.bRenderingOffScreen <;>
    cases h2 : env.HoloPlayWindowSettings.WindowType <;>
    simp [StartPlayer, h, placeSeparateWindow, placementCount, teardownCount,
      List.countP_append, placement_startLoop, teardown_startLoop, isDestroy_startLoop,
      Event.isPlacement, Event.isTeardown, Event.isDestroy, h1, h2]

theorem StartPlayer_mainViewport_counts (env : Environment) (s : State)
    (h : s.bIsPlaying = false) (gv : UGameViewportClient) (hg : s.host.GameViewport = some gv) :
    placementCount (StartPlayer EHoloPlayModeType.PlayMode_InMainViewport env s).log
        = placementCount s.log + 1
    ∧ teardownCount (StartPlayer EHoloPlayModeType.PlayMode_InMainViewport env s).log
        = teardownCount s.log := by
  cases h1 : env.HoloPlayWindowSettings.bAutoPlacementInHoloPlay <;>
    cases h2 : s.host.WITH_EDITOR <;>
    cases h3 : env.bMovieSceneCaptureRooted <;>
    cases h4 : s.bIsCaptureStandaloneMovie <;>
    cases h5 : env.bEditorFloating <;>
    cases h6 : s.bIsStandaloneGame <;>
    cases h7 : s.bIsGameMode <;>
    simp [StartPlayer, h, placeMainViewport, hg, mainViewportAutoPlacement, placementCount,
      teardownCount, List.countP_append, placement_startLoop, teardown_startLoop,
      Event.isPlacement, Event.isTeardown, h1, h2, h3, h4, h5, h6, h7]

theorem start_mainViewport_free (env : Environment) (s : State)
    (h : s.bIsPlaying = false) (hv : s.host.GameViewport = none) :
    (StartPlayer EHoloPlayModeType.PlayMode_InMainViewport env s).bIsPlaying = true
    ∧ (StartPlayer EHoloPlayModeType.PlayMode_InMainViewport env s).CurrentHoloPlayModeType
        = EHoloPlayModeType.PlayMode_InMainViewport
    ∧ (StartPlayer EHoloPlayModeType.PlayMode_InMainViewport env s).HoloPlayViewport
        = s.HoloPlayViewport
    ∧ (StartPlayer EHoloPlayModeType.PlayMode_InMainViewport env s).HoloPlayWindow
        = s.HoloPlayWindow
    ∧ (StartPlayer EHoloPlayModeType.PlayMode_InMainViewport env s).host = s.host
    ∧ (StartPlayer EHoloPlayModeType.PlayMode_InMainViewport env s).log
        = (startLoop EHoloPlayModeType.PlayMode_InMainViewport s.Managers true s.log).2 := by
  simp [StartPlayer, h, placeMainViewport, hv]

/-! ### One call on a well-formed state -/

theorem teardownCount_split (log : List Event) :
    teardownCount log = log.countP Event.isDestroy + log.countP Event.isOverlayRemoval := by
  unfold teardownCount
  induction log with
  | nil => rfl
  | cons e es ih =>
    cases e <;>
      simp [List.countP_cons, Event.isTeardown, Event.isDestroy, Event.isOverlayRemoval, ih] <;>
      omega

theorem teardownMode_cases (s : State)
    (h : s.CurrentHoloPlayModeType ≠ EHoloPlayModeType.PlayMode_Other) :
    teardownMode s = EHoloPlayModeType.PlayMode_InMainViewport
    ∨ (teardownMode s = EHoloPlayModeType.PlayMode_InSeparateWindow
        ∧ s.CurrentHoloPlayModeType = EHoloPlayModeType.PlayMode_InSeparateWindow) := by
  unfold teardownMode
  split
  · exact Or.inl rfl
  · cases hm : s.CurrentHoloPlayModeType with
    | PlayMode_InSeparateWindow => exact Or.inr ⟨rfl, rfl⟩
    | PlayMode_InMainViewport => exact Or.inl rfl
    | PlayMode_Other => exact absurd hm h

theorem StopPlayer_wellFormed (n : Nat) (s : State) (hp : s.bIsPlaying = true)
    (hwf : WellFormed s) :
    ∃ t, StopPlayer (n + 2) s = .ok t
      ∧ ((teardownMode s = EHoloPlayModeType.PlayMode_InMainViewport
            ∧ ranMainViewportTeardown s t)
          ∨ (teardownMode s = EHoloPlayModeType.PlayMode_InSeparateWindow
            ∧ ranSeparateWindowTeardown s t)) := by
  rcases teardownMode_cases s (hwf.mode hp) with hm | ⟨hm, hc⟩
  · obtain ⟨t, ht, hr⟩ := StopPlayer_ranMainViewportTeardown (n + 1) s hp hm (hwf.surface hp)
    exact ⟨t, ht, Or.inl ⟨hm, hr⟩⟩
  · obtain ⟨hf, hw⟩ := hwf.window hp hc
    obtain ⟨w, hw⟩ := Option.isSome_iff_exists.mp hw
    obtain ⟨t, ht, hr⟩ := StopPlayer_ranSeparateWindowTeardown n s w hp hm hf hw
    exact ⟨t, ht, Or.inr ⟨hm, hr⟩⟩

theorem wellFormed_of_idle (s : State) (h : s.bIsPlaying = false) : WellFormed s :=
  ⟨fun hp => by simp [h] at hp, fun hp => by simp [h] at hp, fun hp => by simp [h] at hp⟩

theorem StopPlayer_step (n : Nat) (s : State) (hwf : WellFormed s) :
    ∃ t, StopPlayer (n + 2) s = .ok t
      ∧ t.bIsPlaying = false
      ∧ sameSession s t
      ∧ placementCount t.log = placementCount s.log
      ∧ (s.host.GameViewport.isSome = true →
          teardownCount t.log = teardownCount s.log + (if s.bIsPlaying then 1 else 0)) := by
  cases hp : s.bIsPlaying with
  | false =>
    exact ⟨s, StopPlayer_idle (n + 1) s hp, hp, ⟨rfl, rfl, rfl, rfl, rfl, rfl, rfl, rfl, rfl⟩,
      rfl, fun _ => by simp⟩
  | true =>
    obtain ⟨t, ht, hr⟩ := StopPlayer_wellFormed n s hp hwf
    refine ⟨t, ht, ?_⟩
    rcases hr with ⟨_, h1, _, _, _, hd, hgv, _, hpl, hss⟩ | ⟨_, h1, _, hd, _, _, _, _, hov, hpl, hss⟩
    · refine ⟨h1, hss, hpl, ?_⟩
      intro hsome
      obtain ⟨gv, hg⟩ := Option.isSome_iff_exists.mp hsome
      obtain ⟨v, _, _, _, hlog⟩ := hgv gv hg
      rw [hlog]
      have hb := teardownCount_stopBroadcast s
      simp only [teardownCount] at hb ⊢
      simp [List.countP_append, Event.isTeardown, hb]
    · refine ⟨h1, hss, hpl, ?_⟩
      intro _
      rw [teardownCount_split, teardownCount_split, hd, hov]
      simp
      omega

theorem StartPlayer_step (mode : EHoloPlayModeType) (env : Environment) (s : State)
    (hmode : mode ≠ EHoloPlayModeType.PlayMode_Other) (hwf : WellFormed s) :
    WellFormed (StartPlayer mode env s)
    ∧ (StartPlayer mode env s).bIsPlaying = true
    ∧ (StartPlayer mode env s).host.GameViewport.isSome = s.host.GameViewport.isSome
    ∧ teardownCount (StartPlayer mode env s).log = teardownCount s.log
    ∧ (s.host.GameViewport.isSome = true →
        placementCount (StartPlayer mode env s).log
          = placementCount s.log + (if s.bIsPlaying then 0 else 1)) := by
  cases hp : s.bIsPlaying with
  | true =>
    rw [StartPlayer_playing mode env s hp]
    exact ⟨hwf, hp, rfl, rfl, fun _ => by simp⟩
  | false =>
    cases mode with
    | PlayMode_Other => exact absurd rfl hmode
    | PlayMode_InSeparateWindow =>
      obtain ⟨h1, h2, _⟩ := StartPlayer_separateWindow_counts env s hp
      refine ⟨⟨?_, ?_, ?_⟩, ?_, ?_, h2, fun _ => by simp [h1]⟩
      · intro _ _; simp [StartPlayer, hp, placeSeparateWindow]
      · intro _ _; simp [StartPlayer, hp, placeSeparateWindow]
      · intro _; simp [StartPlayer, hp]
      · simp [StartPlayer, hp]
      · simp [StartPlayer, hp]
    | PlayMode_InMainViewport =>
      cases hg : s.host.GameViewport with
      | none =>
        obtain ⟨h1, h2, h3, h4, h5, h6⟩ := start_mainViewport_free env s hp hg
        refine ⟨⟨?_, ?_, ?_⟩, h1, by rw [h5, hg], ?_, fun h => by simp at h⟩
        · intro _ hc; rw [h2] at hc; cases hc
        · intro _ hsome; rw [h5, hg] at hsome; cases hsome
        · intro _; rw [h2]; decide
        · rw [h6]; exact teardown_startLoop _ _ _
      | some gv =>
        obtain ⟨h1, h2⟩ := StartPlayer_mainViewport_counts env s hp gv hg
        refine ⟨⟨?_, ?_, ?_⟩, ?_, ?_, h2, fun _ => by simp [h1]⟩
        · intro _ hc; simp [StartPlayer, hp] at hc
        · intro _ _; simp [StartPlayer, hp, placeMainViewport, hg]
        · intro _; simp [StartPlayer, hp]
        · simp [StartPlayer, hp]
        · simp [StartPlayer, hp, placeMainViewport, hg]

theorem wellFormed_run (n : Nat) (calls : List Call) (s : State) (hwf : WellFormed s) :
    ∃ t, run (n + 2) calls s = .ok t ∧ WellFormed t := by
  have hstart : ∀ (mode : EHoloPlayModeType) (env : Environment) (u : State),
      WellFormed u → WellFormed (StartPlayer mode env u) := by
    intro mode env u hu
    cases mode with
    | PlayMode_InSeparateWindow => exact (StartPlayer_step _ env u (by decide) hu).1
    | PlayMode_InMainViewport => exact (StartPlayer_step _ env u (by decide) hu).1
    | PlayMode_Other =>
      cases hp : u.bIsPlaying with
      | true => rw [StartPlayer_playing _ env u hp]; exact hu
      | false => exact wellFormed_of_idle _ (by simp [StartPlayer, hp])
  induction calls generalizing s with
  | nil => exact ⟨s, rfl, hwf⟩
  | cons x xs ih =>
    cases x with
    | Start mode env =>
      obtain ⟨t, ht, hwt⟩ := ih _ (hstart mode env s hwf)
      exact ⟨t, by simp only [HoloPlay.run, Call.apply]; exact ht, hwt⟩
    | Stop =>
      obtain ⟨s1, hs1, hp1, _⟩ := StopPlayer_step n s hwf
      obtain ⟨t, ht, hwt⟩ := ih s1 (wellFormed_of_idle s1 hp1)
      exact ⟨t, by simp only [HoloPlay.run, Call.apply, hs1]; exact ht, hwt⟩
    | Restart mode env =>
      obtain ⟨s1, hs1, hp1, _⟩ := StopPlayer_step n s hwf
      obtain ⟨t, ht, hwt⟩ := ih _ (hstart mode env s1 (wellFormed_of_idle s1 hp1))
      exact ⟨t, by simp only [HoloPlay.run, Call.apply, RestartPlayer, hs1]; exact ht, hwt⟩

/-! ### C3, C4: registry order -/

/-- C3, as the code has it: `ShutdownModule` calls `Release` on the managers in insertion
order m1, ..., mn, each exactly once, and leaves the registry empty; a first
`InitAllManagers` calls `Init` in insertion order too, up to the first failing manager. -/
theorem shutdown_releases_in_insertion_order (s : State) :
    (ShutdownModule s).log = s.log ++ s.Managers.map (fun m => Event.ManagerRelease m.id)
    ∧ (ShutdownModule s).Managers = []
    ∧ (s.bIsManagerInit = false →
        (InitAllManagers s).log =
          s.log ++ (upToFirstFailure s.Managers).map (fun m => Event.ManagerInit m.id)) := by
  refine ⟨?_, rfl, ?_⟩
  · simp [ShutdownModule, releaseLoop_eq]
  · intro h
    simp [InitAllManagers, h, initLoop_eq]

/-- Witness for C3 on a registry of two managers. -/
theorem shutdown_releases_in_insertion_order_witness :
    (ShutdownModule (State.idleWith Host.withViewport
        [Manager.succeeding 1, Manager.succeeding 2])).log
      = [Event.ManagerRelease 1, Event.ManagerRelease 2]
    ∧ (InitAllManagers (State.idleWith Host.withViewport
        [Manager.succeeding 1, Manager.succeeding 2])).log
      = [Event.ManagerInit 1, Event.ManagerInit 2] := by
  have h := shutdown_releases_in_insertion_order
    (State.idleWith Host.withViewport [Manager.succeeding 1, Manager.succeeding 2])
  refine ⟨?_, ?_⟩
  · rw [h.1]; rfl
  · rw [h.2.2 rfl]; rfl

/-- C3 as stated fails: with registry [m1, m2] the releases are not in the order m2, m1. -/
theorem shutdown_not_in_reverse_order :
    (ShutdownModule (State.idleWith Host.withViewport
        [Manager.succeeding 1, Manager.succeeding 2])).log
      ≠ [Event.ManagerRelease 2, Event.ManagerRelease 1] := by
  decide

/-- C4, as the code has it: a first `InitAllManagers` calls `Init` in registration order on
the managers up to and including the first whose `Init` fails, and on none after it;
a second call changes nothing, so no `Init` is invoked twice. -/
theorem initAllManagers_twice (s : State) (h : s.bIsManagerInit = false) :
    (InitAllManagers (InitAllManagers s)).log =
      s.log ++ (upToFirstFailure s.Managers).map (fun m => Event.ManagerInit m.id)
    ∧ InitAllManagers (InitAllManagers s) = InitAllManagers s
    ∧ (InitAllManagers s).bIsManagerInit = true := by
  simp [InitAllManagers, h, initLoop_eq]

/-- Witness for C4: a failing first manager, a second one behind it. -/
theorem initAllManagers_twice_witness :
    (InitAllManagers (InitAllManagers (State.idleWith Host.withViewport
        [Manager.succeeding 1, Manager.failingInit 2, Manager.succeeding 3]))).log
      = [Event.ManagerInit 1, Event.ManagerInit 2] := by
  rw [(initAllManagers_twice (State.idleWith Host.withViewport
        [Manager.succeeding 1, Manager.failingInit 2, Manager.succeeding 3]) rfl).1]
  rfl

/-- C4 as stated fails: when the first manager's `Init` fails, the second manager's `Init`
is never invoked, however often `InitAllManagers` is called. -/
theorem initAllManagers_aborts_on_failure :
    initCalls 2 (InitAllManagers (InitAllManagers (State.idleWith Host.withViewport
        [Manager.failingInit 1, Manager.succeeding 2]))).log = 0 := by
  decide

/-! ### C8: geometry of the separate window -/

theorem roundToSingle_small (a : Nat) (h : a < 2 ^ 24) : roundToSingle a = a := by
  have hd : droppedBits (127 + 1) a = 0 := by
    rw [droppedBits]
    exact if_pos h
  have hd : droppedBits 128 a = 0 := hd
  simp [roundToSingle, hd, Nat.mod_one]

theorem toSingle_small (x : Int) (h : x.natAbs < 2 ^ 24) : toSingle x = x := by
  unfold toSingle
  rw [roundToSingle_small _ h]
  split <;> omega

/-- C8, as the code has it: the window built by `StartPlayer(SeparateWindow)` from a
non-playing state has, under auto-placement, the calibration size and the display position
as stored in single-precision float components, which are the calibration and display
values themselves whenever these are below 2^24 in magnitude, and auto-centre `None`
whatever was configured; without auto-placement it has the configured size, position and
auto-centre unchanged. -/
theorem separate_window_geometry (env : Environment) (s : State) (h : s.bIsPlaying = false) :
    ∃ w, (StartPlayer EHoloPlayModeType.PlayMode_InSeparateWindow env s).HoloPlayWindow = some w
      ∧ (env.HoloPlayWindowSettings.bAutoPlacementInHoloPlay = true →
          w.ClientSize = ⟨toSingle env.CalibrationSettings.ScreenWidth,
                          toSingle env.CalibrationSettings.ScreenHeight⟩
          ∧ w.ScreenPosition = ⟨toSingle env.DisplaySettings.LKGxpos,
                                toSingle env.DisplaySettings.LKGypos⟩
          ∧ w.AutoCenter = EAutoCenter.None
          ∧ (env.CalibrationSettings.ScreenWidth.natAbs < 2 ^ 24 →
              env.CalibrationSettings.ScreenHeight.natAbs < 2 ^ 24 →
              w.ClientSize = ⟨env.CalibrationSettings.ScreenWidth,
                              env.CalibrationSettings.ScreenHeight⟩)
          ∧ (env.DisplaySettings.LKGxpos.natAbs < 2 ^ 24 →
              env.DisplaySettings.LKGypos.natAbs < 2 ^ 24 →
              w.ScreenPosition = ⟨env.DisplaySettings.LKGxpos, env.DisplaySettings.LKGypos⟩))
      ∧ (env.HoloPlayWindowSettings.bAutoPlacementInHoloPlay = false →
          w.ClientSize = env.HoloPlayWindowSettings.ClientSize
          ∧ w.ScreenPosition = env.HoloPlayWindowSettings.ScreenPosition
          ∧ w.AutoCenter = env.HoloPlayWindowSettings.WindowAutoCenter) := by
  have hw : (StartPlayer EHoloPlayModeType.PlayMode_InSeparateWindow env s).HoloPlayWindow
      = (placeSeparateWindow env s).HoloPlayWindow := by
    simp [StartPlayer, h, placeSeparateWindow]
  refine ⟨_, hw, ?_, ?_⟩
  · intro ha
    refine ⟨?_, ?_, ?_, ?_, ?_⟩
    · simp [placeSeparateWindow, separateWindowGeometry, ha]
    · simp [placeSeparateWindow, separateWindowGeometry, ha]
    · simp [placeSeparateWindow, separateWindowGeometry, ha]
    · intro h1 h2
      simp [placeSeparateWindow, separateWindowGeometry, ha, toSingle_small _ h1,
        toSingle_small _ h2]
    · intro h1 h2
      simp [placeSeparateWindow, separateWindowGeometry, ha, toSingle_small _ h1,
        toSingle_small _ h2]
  · intro ha
    simp [placeSeparateWindow, separateWindowGeometry, ha]

/-- Witness for C8: the two examples of the specification. -/
theorem separate_window_geometry_witness :
    (∃ w, (StartPlayer EHoloPlayModeType.PlayMode_InSeparateWindow Environment.autoPlaced
            (State.initial Host.withViewport)).HoloPlayWindow = some w
        ∧ w.ClientSize = ⟨1536, 2048⟩ ∧ w.ScreenPosition = ⟨100, 0⟩
        ∧ w.AutoCenter = EAutoCenter.None)
    ∧ (∃ w, (StartPlayer EHoloPlayModeType.PlayMode_InSeparateWindow Environment.configured
            (State.initial Host.withViewport)).HoloPlayWindow = some w
        ∧ w.ClientSize = ⟨800, 600⟩ ∧ w.ScreenPosition = ⟨50, 50⟩
        ∧ w.AutoCenter = EAutoCenter.PreferredWorkArea) := by
  constructor
  · obtain ⟨w, hw, hauto, _⟩ :=
      separate_window_geometry Environment.autoPlaced (State.initial Host.withViewport) rfl
    obtain ⟨_, _, hc, hsize, hpos⟩ := hauto rfl
    exact ⟨w, hw, hsize (by decide) (by decide), hpos (by decide) (by decide), hc⟩
  · obtain ⟨w, hw, _, hcfg⟩ :=
      separate_window_geometry Environment.configured (State.initial Host.withViewport) rfl
    exact ⟨w, hw, hcfg rfl⟩

/-- C8 as stated fails: under auto-placement with a calibration width of 16777217 the window
built by `StartPlayer(SeparateWindow)` has width 16777216, the nearest single-precision
float, not the calibration width. -/
theorem separate_window_geometry_rounds :
    ∃ w, (StartPlayer EHoloPlayModeType.PlayMode_InSeparateWindow Environment.wideCalibration
            (State.initial Host.withViewport)).HoloPlayWindow = some w
      ∧ w.ClientSize.X = 16777216
      ∧ w.ClientSize.X ≠ Environment.wideCalibration.CalibrationSettings.ScreenWidth :=
  ⟨_, rfl, by decide, by decide⟩

/-! ### C2: main-viewport start without a primary viewport -/

/-- C2, as the code has it: `StartPlayer(MainViewport)` from a non-playing state with no
primary game viewport places nothing (no surface is built or attached, handles and host are
untouched, no placement call is made), records the mode, and sets `bIsPlaying` to true
all the same. -/
theorem start_mainViewport_without_viewport (env : Environment) (s : State)
    (h : s.bIsPlaying = false) (hv : s.host.GameViewport = none) :
    (StartPlayer EHoloPlayModeType.PlayMode_InMainViewport env s).bIsPlaying = true
    ∧ (StartPlayer EHoloPlayModeType.PlayMode_InMainViewport env s).CurrentHoloPlayModeType
        = EHoloPlayModeType.PlayMode_InMainViewport
    ∧ (StartPlayer EHoloPlayModeType.PlayMode_InMainViewport env s).HoloPlayViewport
        = s.HoloPlayViewport
    ∧ (StartPlayer EHoloPlayModeType.PlayMode_InMainViewport env s).HoloPlayWindow
        = s.HoloPlayWindow
    ∧ (StartPlayer EHoloPlayModeType.PlayMode_InMainViewport env s).host = s.host
    ∧ (StartPlayer EHoloPlayModeType.PlayMode_InMainViewport env s).log
        = (startLoop EHoloPlayModeType.PlayMode_InMainViewport s.Managers true s.log).2 :=
  start_mainViewport_free env s h hv

/-- Witness for C2 on the initial state of a host without a game viewport. -/
theorem start_mainViewport_without_viewport_witness :
    (StartPlayer EHoloPlayModeType.PlayMode_InMainViewport Environment.configured
        (State.initial Host.withoutViewport)).bIsPlaying = true
    ∧ (StartPlayer EHoloPlayModeType.PlayMode_InMainViewport Environment.configured
        (State.initial Host.withoutViewport)).HoloPlayViewport = none :=
  ⟨(start_mainViewport_without_viewport Environment.configured
      (State.initial Host.withoutViewport) rfl rfl).1,
   (start_mainViewport_without_viewport Environment.configured
      (State.initial Host.withoutViewport) rfl rfl).2.2.1⟩

/-- C2 as stated fails: after `StartPlayer(MainViewport)` in the initial Idle state of a host
without a primary viewport, `bIsPlaying` is true, not false. -/
theorem start_mainViewport_without_viewport_is_playing :
    (StartPlayer EHoloPlayModeType.PlayMode_InMainViewport Environment.configured
        (State.initial Host.withoutViewport)).bIsPlaying ≠ false := by
  decide

/-! ### C9: mode chosen by the launch path -/

/-- C9: run on a non-playing state whose launch flags are still clear, the launch path
starts the player in `MainViewport` whenever the session is a standalone game, a movie
capture, or the lock flag is configured: a standalone or capture session of an editor
build always starts, in `MainViewport`; a game-mode launch with the lock configured
starts in `MainViewport` whatever the last-executed mode; and a game-mode launch with
none of the three starts in the configured last-executed mode. A game-mode launch is
one with `-game` in an editor build, and any launch of a build without the editor. -/
theorem launch_mode (args : LaunchArguments) (env : Environment) (s : State)
    (hidle : s.bIsPlaying = false) (hs : s.bIsStandaloneGame = false)
    (hc : s.bIsCaptureStandaloneMovie = false) :
    (((StartPlayerSeparateProccess args env s).bIsStandaloneGame = true
        ∨ (StartPlayerSeparateProccess args env s).bIsCaptureStandaloneMovie = true
        ∨ env.HoloPlayWindowSettings.bLockInMainViewport = true) →
      (StartPlayerSeparateProccess args env s).bIsPlaying = true →
      (StartPlayerSeparateProccess args env s).CurrentHoloPlayModeType
        = EHoloPlayModeType.PlayMode_InMainViewport)
    ∧ (s.host.WITH_EDITOR = true →
        (args.bStandaloneSessionName = true ∨ args.bCaptureManifest = true) →
        (StartPlayerSeparateProccess args env s).bIsPlaying = true
        ∧ (StartPlayerSeparateProccess args env s).CurrentHoloPlayModeType
            = EHoloPlayModeType.PlayMode_InMainViewport)
    ∧ ((s.host.WITH_EDITOR = true → args.bGameSwitch = true) →
        env.HoloPlayWindowSettings.bLockInMainViewport = true →
        (StartPlayerSeparateProccess args env s).bIsPlaying = true
        ∧ (StartPlayerSeparateProccess args env s).CurrentHoloPlayModeType
            = EHoloPlayModeType.PlayMode_InMainViewport)
    ∧ ((s.host.WITH_EDITOR = true → args.bGameSwitch = true) →
        (StartPlayerSeparateProccess args env s).bIsStandaloneGame = false →
        (StartPlayerSeparateProccess args env s).bIsCaptureStandaloneMovie = false →
        env.HoloPlayWindowSettings.bLockInMainViewport = false →
        (StartPlayerSeparateProccess args env s).CurrentHoloPlayModeType
            = env.HoloPlayWindowSettings.LastExecutedPlayModeType
        ∧ (env.HoloPlayWindowSettings.LastExecutedPlayModeType ≠ EHoloPlayModeType.PlayMode_Other →
            (StartPlayerSeparateProccess args env s).bIsPlaying = true)) := by
  cases hE : s.host.WITH_EDITOR <;> cases hS : args.bStandaloneSessionName <;>
    cases hC : args.bCaptureManifest <;> cases hG : args.bGameSwitch <;>
    cases hL : env.HoloPlayWindowSettings.bLockInMainViewport <;>
    cases hM : env.HoloPlayWindowSettings.LastExecutedPlayModeType <;>
    simp [StartPlayerSeparateProccess, StartPlayer, hidle, hs, hc, hE, hS, hC, hG, hL, hM]

/-- Witness for C9: a game-mode launch of an editor build with the lock configured and the
last-executed mode `SeparateWindow` starts in `MainViewport`. -/
theorem launch_mode_witness :
    (StartPlayerSeparateProccess ⟨false, false, true⟩ Environment.locked
        (State.initial Host.withViewport)).bIsPlaying = true
    ∧ (StartPlayerSeparateProccess ⟨false, false, true⟩ Environment.locked
        (State.initial Host.withViewport)).CurrentHoloPlayModeType
        = EHoloPlayModeType.PlayMode_InMainViewport :=
  (launch_mode ⟨false, false, true⟩ Environment.locked (State.initial Host.withViewport)
    rfl rfl rfl).2.2.1 (fun _ => rfl) rfl

/-! ### C7: the window-closed callback fired from inside the destroy call -/

/-- C7: let `StopPlayer` run the separate-window teardown on window `w` while the host fires
the window-closed callback from inside the destroy call. The callback, run on the state the
destroy call left, finds the destroy-requested flag set: it makes no destroy call and keeps
the window and surface handles as they are. The outer call then returns in the Idle state
with both handles released, and `w` has received exactly one destroy call, the only destroy
call made. -/
theorem reentrant_stop_destroys_once (n : Nat) (s : State) (w : SWindow)
    (hp : s.bIsPlaying = true)
    (hm : teardownMode s = EHoloPlayModeType.PlayMode_InSeparateWindow)
    (hf : s.bIsDestroyWindowRequested = false) (hw : s.HoloPlayWindow = some w)
    (hsync : s.host.bCloseFiresSynchronously = true) (hset : w.bOnWindowClosedSet = true) :
    (∃ m, OnWindowClosed (n + 1) (issueDestroy w (stopBroadcast s)) = .ok m
        ∧ m.bIsDestroyWindowRequested = true
        ∧ m.HoloPlayWindow = some w
        ∧ m.HoloPlayViewport = s.HoloPlayViewport
        ∧ m.log.countP Event.isDestroy
            = (issueDestroy w (stopBroadcast s)).log.countP Event.isDestroy
        ∧ m.bIsPlaying = false)
    ∧ (∃ s', StopPlayer (n + 2) s = .ok s'
        ∧ s'.bIsPlaying = false
        ∧ s'.HoloPlayWindow = none
        ∧ s'.HoloPlayViewport = none
        ∧ destroyCount w.id s'.log = destroyCount w.id s.log + 1
        ∧ s'.log.countP Event.isDestroy = s.log.countP Event.isDestroy + 1) := by
  constructor
  · refine ⟨_, StopPlayer_requested n _ hp hm rfl, rfl, hw, rfl, ?_, rfl⟩
    exact isDestroy_stopBroadcast (issueDestroy w (stopBroadcast s))
  · refine ⟨_, StopPlayer_separateWindow n s w hp hm hf hw, rfl, rfl, rfl, ?_, ?_⟩
    · simp only [hsync, hset, Bool.and_self, if_true, releaseHandles]
      show destroyCount w.id (stopBroadcast (issueDestroy w (stopBroadcast s))).log = _
      rw [destroyCount_stopBroadcast, destroyCount_issueDestroy, destroyCount_stopBroadcast]
    · simp only [hsync, hset, Bool.and_self, if_true, releaseHandles]
      show (stopBroadcast (issueDestroy w (stopBroadcast s))).log.countP Event.isDestroy = _
      rw [isDestroy_stopBroadcast, isDestroy_issueDestroy, isDestroy_stopBroadcast]

/-- Witness for C7: the state after `StartPlayer(SeparateWindow)` on a host that fires the
callback synchronously; the window has id 0. -/
theorem reentrant_stop_destroys_once_witness :
    ∃ s', StopPlayer 2 (StartPlayer EHoloPlayModeType.PlayMode_InSeparateWindow
            Environment.configured (State.initial Host.synchronousClose)) = .ok s'
      ∧ s'.bIsPlaying = false ∧ s'.HoloPlayWindow = none ∧ s'.HoloPlayViewport = none
      ∧ destroyCount 0 s'.log = 1 := by
  obtain ⟨s', h1, h2, h3, h4, h5, _⟩ :=
    (reentrant_stop_destroys_once 0
      (StartPlayer EHoloPlayModeType.PlayMode_InSeparateWindow
        Environment.configured (State.initial Host.synchronousClose))
      _ rfl rfl rfl rfl rfl rfl).2
  exact ⟨s', h1, h2, h3, h4, h5⟩

/-! ### C6: which teardown StopPlayer runs -/

theorem teardownMode_mainViewport (s : State)
    (hsel : (s.bIsStandaloneGame = true ∨ s.bIsCaptureStandaloneMovie = true
        ∨ s.bLockInMainViewport = true)
      ∨ s.CurrentHoloPlayModeType = EHoloPlayModeType.PlayMode_InMainViewport) :
    teardownMode s = EHoloPlayModeType.PlayMode_InMainViewport := by
  unfold teardownMode
  split
  · rfl
  · rename_i hno
    rcases hsel with (h | h | h) | h
    · simp [h] at hno
    · simp [h] at hno
    · simp [h] at hno
    · exact h

/-- C6, as the code has it: in a playing state of a standalone, movie-capture or locked
session, whatever mode was started, and in a playing main-viewport session with none of the
three flags set, `StopPlayer` takes the main-viewport teardown and nothing of the
separate-window one. Where a game viewport exists and the module holds a surface, that
teardown enables world rendering again, removes the surface from the widgets of the game
viewport and resets the surface handle, and leaves the window handle, the destroy-requested
flag and the windows of the host alone, without a destroy call. Where no game viewport
exists it executes nothing: `StopPlayer` only broadcasts to the managers and clears
`bIsPlaying`. In a playing separate-window session with none of the three flags set,
`StopPlayer` runs the separate-window teardown on the window it holds. -/
theorem stop_teardown_selection (n : Nat) (s : State) (hp : s.bIsPlaying = true) :
    (∀ gv v,
        ((s.bIsStandaloneGame = true ∨ s.bIsCaptureStandaloneMovie = true
            ∨ s.bLockInMainViewport = true)
          ∨ s.CurrentHoloPlayModeType = EHoloPlayModeType.PlayMode_InMainViewport) →
        s.host.GameViewport = some gv → s.HoloPlayViewport = some v →
        ∃ t, StopPlayer (n + 2) s = .ok t
          ∧ t.bIsPlaying = false
          ∧ t.host.GameViewport = some
              { gv with bDisableWorldRendering := false
                        ViewportWidgets := gv.ViewportWidgets.erase v.id }
          ∧ t.HoloPlayViewport = none
          ∧ t.log = (stopBroadcast s).log ++ [Event.RemoveViewportWidgetContent v.id]
          ∧ t.HoloPlayWindow = s.HoloPlayWindow
          ∧ t.bIsDestroyWindowRequested = s.bIsDestroyWindowRequested
          ∧ t.host.SlateWindows = s.host.SlateWindows
          ∧ t.log.countP Event.isDestroy = s.log.countP Event.isDestroy)
    ∧ (((s.bIsStandaloneGame = true ∨ s.bIsCaptureStandaloneMovie = true
            ∨ s.bLockInMainViewport = true)
          ∨ s.CurrentHoloPlayModeType = EHoloPlayModeType.PlayMode_InMainViewport) →
        s.host.GameViewport = none →
        StopPlayer (n + 2) s = .ok { stopBroadcast s with bIsPlaying := false })
    ∧ (∀ w, s.bIsStandaloneGame = false → s.bIsCaptureStandaloneMovie = false →
        s.bLockInMainViewport = false →
        s.CurrentHoloPlayModeType = EHoloPlayModeType.PlayMode_InSeparateWindow →
        s.bIsDestroyWindowRequested = false → s.HoloPlayWindow = some w →
        ∃ t, StopPlayer (n + 2) s = .ok t ∧ ranSeparateWindowTeardown s t) := by
  refine ⟨?_, ?_, ?_⟩
  · intro gv v hsel hg hv
    obtain ⟨t, ht, h1, hwin, hflag, hslate, hd, hgvc, _⟩ :=
      StopPlayer_ranMainViewportTeardown (n + 1) s hp (teardownMode_mainViewport s hsel)
        (fun _ => by rw [hv]; rfl)
    obtain ⟨v2, hv2, hg2, hnone, hlog⟩ := hgvc gv hg
    have hvv : v2 = v := by rw [hv] at hv2; cases hv2; rfl
    subst hvv
    exact ⟨t, ht, h1, hg2, hnone, hlog, hwin, hflag, hslate, hd⟩
  · intro hsel hg
    rw [StopPlayer_mainViewport (n + 1) s hp (teardownMode_mainViewport s hsel)]
    have ht : teardownMainViewport (stopBroadcast s) = .ok (stopBroadcast s) := by
      simp [teardownMainViewport, stopBroadcast, hg]
    rw [ht]
  · intro w h1 h2 h3 hmode hf hw
    apply StopPlayer_ranSeparateWindowTeardown n s w hp _ hf hw
    simp [teardownMode, h1, h2, h3, hmode]

/-- Witness for C6: a locked session started in `SeparateWindow` on a host with a game
viewport. -/
theorem stop_teardown_selection_witness :
    ∃ t, StopPlayer 2 (StartPlayer EHoloPlayModeType.PlayMode_InSeparateWindow
            Environment.locked (State.initial Host.withViewport)) = .ok t
      ∧ t.bIsPlaying = false
      ∧ t.HoloPlayViewport = none
      ∧ t.HoloPlayWindow = (StartPlayer EHoloPlayModeType.PlayMode_InSeparateWindow
            Environment.locked (State.initial Host.withViewport)).HoloPlayWindow
      ∧ t.log.countP Event.isDestroy = 0 := by
  obtain ⟨t, h1, h2, _, h4, _, h6, _, _, h9⟩ :=
    (stop_teardown_selection 0
      (StartPlayer EHoloPlayModeType.PlayMode_InSeparateWindow
        Environment.locked (State.initial Host.withViewport)) rfl).1
      _ _ (Or.inl (Or.inr (Or.inr rfl))) rfl rfl
  exact ⟨t, h1, h2, h4, h6, h9⟩

/-- C6 as stated fails where the main-viewport teardown has no surface to act on. In a
playing locked session on a host without a game viewport, `StopPlayer` ends not playing
without a single teardown call and with the host as it was. And when the game viewport
appears only after a main-viewport start that found none, the playing state holds no
surface and `StopPlayer` stops on the null surface handle. -/
theorem stop_without_surface_tears_nothing_down :
    (∃ t, StopPlayer 2 (StartPlayer EHoloPlayModeType.PlayMode_InSeparateWindow
              Environment.locked (State.initial Host.withoutViewport)) = .ok t
        ∧ t.bIsPlaying = false
        ∧ t.host = (StartPlayer EHoloPlayModeType.PlayMode_InSeparateWindow
              Environment.locked (State.initial Host.withoutViewport)).host
        ∧ teardownCount t.log = 0)
    ∧ StopPlayer 2
        { StartPlayer EHoloPlayModeType.PlayMode_InMainViewport
            Environment.locked (State.initial Host.withoutViewport) with
          host := Host.withViewport } = .error Fault.nullHandle :=
  ⟨⟨_, rfl, rfl, rfl, rfl⟩, rfl⟩

/-! ### C10: a window started under a main-viewport-only session survives StopPlayer -/

/-- C10: from a non-playing state of a standalone, movie-capture or locked session,
`StartPlayer(SeparateWindow)` followed by `StopPlayer()` ends not playing and leaves the
window built by the start alone: the handle still holds that window, the destroy-requested
flag is false, no destroy call was made and the window is still among the windows of the
host. The surface handle is reset when a game viewport exists, and kept when none does. -/
theorem start_separateWindow_then_stop_keeps_window (n : Nat) (env : Environment) (s : State)
    (hidle : s.bIsPlaying = false)
    (hflag : s.bIsStandaloneGame = true ∨ s.bIsCaptureStandaloneMovie = true
      ∨ env.HoloPlayWindowSettings.bLockInMainViewport = true) :
    ∃ w t, (StartPlayer EHoloPlayModeType.PlayMode_InSeparateWindow env s).HoloPlayWindow = some w
      ∧ StopPlayer (n + 1) (StartPlayer EHoloPlayModeType.PlayMode_InSeparateWindow env s) = .ok t
      ∧ t.bIsPlaying = false
      ∧ t.HoloPlayWindow = some w
      ∧ t.bIsDestroyWindowRequested = false
      ∧ t.log.countP Event.isDestroy = s.log.countP Event.isDestroy
      ∧ w.id ∈ t.host.SlateWindows
      ∧ (s.host.GameViewport.isSome = true → t.HoloPlayViewport = none)
      ∧ (s.host.GameViewport = none →
          t.HoloPlayViewport.isSome = true
          ∧ t.HoloPlayViewport
              = (StartPlayer EHoloPlayModeType.PlayMode_InSeparateWindow env s).HoloPlayViewport) := by
  have hs1 : StartPlayer EHoloPlayModeType.PlayMode_InSeparateWindow env s
      = { placeSeparateWindow env
            { s with
              CurrentHoloPlayModeType := EHoloPlayModeType.PlayMode_InSeparateWindow
              bLockInMainViewport := env.HoloPlayWindowSettings.bLockInMainViewport
              log := (startLoop EHoloPlayModeType.PlayMode_InSeparateWindow s.Managers true s.log).2 }
          with bIsPlaying := true } := by
    simp [StartPlayer, hidle]
  have hcount := (StartPlayer_separateWindow_counts env s hidle).2.2
  generalize hS : StartPlayer EHoloPlayModeType.PlayMode_InSeparateWindow env s = s1 at hs1 hcount
  have hp : s1.bIsPlaying = true := by rw [hs1]
  have hm : teardownMode s1 = EHoloPlayModeType.PlayMode_InMainViewport := by
    rw [hs1]
    rcases hflag with h | h | h <;> simp [teardownMode, placeSeparateWindow, h]
  have hgv : s1.host.GameViewport = s.host.GameViewport := by rw [hs1]; rfl
  have hsurf : s1.HoloPlayViewport.isSome = true := by rw [hs1]; rfl
  obtain ⟨w, hw⟩ : ∃ w, s1.HoloPlayWindow = some w ∧ w.id ∈ s1.host.SlateWindows
      ∧ s1.bIsDestroyWindowRequested = false := by
    rw [hs1]
    exact ⟨_, rfl, by simp [placeSeparateWindow], rfl⟩
  obtain ⟨t, ht, h1, h2, h3, h4, h5, h6, h7, _⟩ :=
    StopPlayer_ranMainViewportTeardown n s1 hp hm (fun _ => hsurf)
  refine ⟨w, t, hw.1, ht, h1, h2.trans hw.1, h3.trans hw.2.2, h5.trans hcount,
    h4 ▸ hw.2.1, ?_, ?_⟩
  · intro hsome
    rw [← hgv] at hsome
    obtain ⟨gv, hgv2⟩ := Option.isSome_iff_exists.mp hsome
    obtain ⟨v, _, _, hnone, _⟩ := h6 gv hgv2
    exact hnone
  · intro hnone
    rw [← hgv] at hnone
    obtain ⟨_, hkeep, _⟩ := h7 hnone
    exact ⟨hkeep ▸ hsurf, hkeep⟩

/-- Witness for C10: a locked session on a host with a game viewport. -/
theorem start_separateWindow_then_stop_keeps_window_witness :
    ∃ w t, (StartPlayer EHoloPlayModeType.PlayMode_InSeparateWindow Environment.locked
              (State.initial Host.withViewport)).HoloPlayWindow = some w
      ∧ StopPlayer 1 (StartPlayer EHoloPlayModeType.PlayMode_InSeparateWindow Environment.locked
              (State.initial Host.withViewport)) = .ok t
      ∧ t.bIsPlaying = false ∧ t.HoloPlayWindow = some w
      ∧ t.bIsDestroyWindowRequested = false := by
  obtain ⟨w, t, h1, h2, h3, h4, h5, _⟩ :=
    start_separateWindow_then_stop_keeps_window 0 Environment.locked
      (State.initial Host.withViewport) rfl (Or.inr (Or.inr rfl))
  exact ⟨w, t, h1, h2, h3, h4, h5⟩

/-! ### C1: sequences of StartPlayer and StopPlayer -/

theorem lastIsStart_cons_cons (x y : Call) (ys : List Call) :
    lastIsStart (x :: y :: ys) = lastIsStart (y :: ys) := by
  simp [lastIsStart, List.getLast?_cons_cons]

theorem clampedCounter_startStop (calls : List Call)
    (hvalid : ∀ c ∈ calls, c.isStartStop = true) (c : Nat) (hc : c ≤ 1) (hne : calls ≠ []) :
    clampedCounter c calls = if lastIsStart calls then 1 else 0 := by
  induction calls generalizing c with
  | nil => exact absurd rfl hne
  | cons x xs ih =>
    have hx : x.isStartStop = true := hvalid x (List.mem_cons_self _ _)
    have hxs : ∀ y ∈ xs, y.isStartStop = true := fun y hy => hvalid y (List.mem_cons_of_mem _ hy)
    cases xs with
    | nil =>
      cases x with
      | Start mode env => simp [clampedCounter, lastIsStart, Call.isStart]
      | Stop =>
        simp [clampedCounter, lastIsStart, Call.isStart]
        omega
      | Restart mode env => simp [Call.isStartStop] at hx
    | cons y ys =>
      rw [lastIsStart_cons_cons]
      cases x with
      | Start mode env =>
        exact ih hxs _ (Nat.min_le_right _ _) (by simp)
      | Stop =>
        exact ih hxs _ (by omega) (by simp)
      | Restart mode env => simp [Call.isStartStop] at hx

theorem run_startStop (n : Nat) (calls : List Call)
    (hvalid : ∀ c ∈ calls, c.isStartStop = true) (s : State) (hwf : WellFormed s) :
    ∃ t, run (n + 2) calls s = .ok t
      ∧ WellFormed t
      ∧ t.bIsPlaying = decide (clampedCounter (if s.bIsPlaying then 1 else 0) calls = 1)
      ∧ (s.host.GameViewport.isSome = true →
          placementCount t.log = placementCount s.log + idleToPlaying s.bIsPlaying calls
          ∧ teardownCount t.log = teardownCount s.log + playingToIdle s.bIsPlaying calls) := by
  induction calls generalizing s with
  | nil =>
    refine ⟨s, rfl, hwf, ?_, fun _ => ⟨rfl, rfl⟩⟩
    cases s.bIsPlaying <;> simp [clampedCounter]
  | cons x xs ih =>
    have hx : x.isStartStop = true := hvalid x (List.mem_cons_self _ _)
    have hxs : ∀ y ∈ xs, y.isStartStop = true := fun y hy => hvalid y (List.mem_cons_of_mem _ hy)
    cases x with
    | Restart mode env => simp [Call.isStartStop] at hx
    | Stop =>
      obtain ⟨s1, hs1, hp1, hss, hpl, htd⟩ := StopPlayer_step n s hwf
      obtain ⟨t, ht, hwt, hplay, hcounts⟩ := ih hxs s1 (wellFormed_of_idle s1 hp1)
      refine ⟨t, ?_, hwt, ?_, ?_⟩
      · simp only [run, Call.apply, hs1]
        exact ht
      · rw [hplay, hp1]
        cases s.bIsPlaying <;> simp [clampedCounter]
      · intro hsome
        have hsome1 : s1.host.GameViewport.isSome = true := by
          rw [hss.2.2.2.2.2.2.2.2]; exact hsome
        obtain ⟨h1, h2⟩ := hcounts hsome1
        rw [hp1] at h1 h2
        rw [h1, h2, hpl, htd hsome]
        cases s.bIsPlaying <;> (simp [idleToPlaying, playingToIdle]; try omega)
    | Start mode env =>
      have hmode : mode ≠ EHoloPlayModeType.PlayMode_Other := by
        intro h; rw [h] at hx; simp [Call.isStartStop] at hx
      obtain ⟨hw1, hp1, hgv1, htd, hpl⟩ := StartPlayer_step mode env s hmode hwf
      obtain ⟨t, ht, hwt, hplay, hcounts⟩ := ih hxs (StartPlayer mode env s) hw1
      refine ⟨t, ?_, hwt, ?_, ?_⟩
      · simp only [run, Call.apply]
        exact ht
      · rw [hplay, hp1]
        cases s.bIsPlaying <;> simp [clampedCounter]
      · intro hsome
        obtain ⟨h1, h2⟩ := hcounts (by rw [hgv1]; exact hsome)
        rw [hp1] at h1 h2
        rw [h1, h2, htd, hpl hsome]
        cases s.bIsPlaying <;> (simp [idleToPlaying, playingToIdle]; try omega)

/-- C1, as the code has it: for every finite sequence of `StartPlayer(mode)` / `StopPlayer()`
calls, mode one of the two play modes, applied to a non-playing state, the run completes and
`bIsPlaying` afterwards equals the Start-minus-Stop counter clamped to 0 and 1 after each
call, which is true exactly when the sequence is non-empty and ends in a Start. Provided a
primary game viewport exists, the number of placement calls made equals the number of Idle to
Playing transitions and the number of teardown calls the number of Playing to Idle
transitions, so that no redundant call places or tears down anything. -/
theorem start_stop_sequences (n : Nat) (calls : List Call)
    (hvalid : ∀ c ∈ calls, c.isStartStop = true) (s : State) (hidle : s.bIsPlaying = false) :
    ∃ t, run (n + 2) calls s = .ok t
      ∧ t.bIsPlaying = decide (clampedCounter 0 calls = 1)
      ∧ t.bIsPlaying = lastIsStart calls
      ∧ (s.host.GameViewport.isSome = true →
          placementCount t.log = placementCount s.log + idleToPlaying false calls
          ∧ teardownCount t.log = teardownCount s.log + playingToIdle false calls) := by
  obtain ⟨t, ht, _, hplay, hcounts⟩ := run_startStop n calls hvalid s (wellFormed_of_idle s hidle)
  rw [hidle] at hplay hcounts
  refine ⟨t, ht, hplay, ?_, hcounts⟩
  rw [hplay]
  cases calls with
  | nil => simp [clampedCounter, lastIsStart]
  | cons x xs =>
    have h := clampedCounter_startStop (x :: xs) hvalid 0 (by omega) (by simp)
    simp only [Bool.false_eq_true, if_false] at h ⊢
    rw [h]
    cases lastIsStart (x :: xs) <;> simp

/-- Witness for C1: Start; Start; Stop; Stop; Stop on a host with a game viewport ends not
playing, with one placement call and one teardown call made. -/
theorem start_stop_sequences_witness :
    ∃ t, run 2 [Call.Start EHoloPlayModeType.PlayMode_InSeparateWindow Environment.configured,
                Call.Start EHoloPlayModeType.PlayMode_InMainViewport Environment.configured,
                Call.Stop, Call.Stop, Call.Stop] (State.initial Host.withViewport) = .ok t
      ∧ t.bIsPlaying = false ∧ placementCount t.log = 1 ∧ teardownCount t.log = 1 := by
  obtain ⟨t, h1, _, h3, h4⟩ := start_stop_sequences 0
    [Call.Start EHoloPlayModeType.PlayMode_InSeparateWindow Environment.configured,
     Call.Start EHoloPlayModeType.PlayMode_InMainViewport Environment.configured,
     Call.Stop, Call.Stop, Call.Stop] (by decide) (State.initial Host.withViewport) rfl
  exact ⟨t, h1, h3, (h4 rfl).1, (h4 rfl).2⟩

/-- C1 as stated fails: on a host without a primary game viewport,
Start(MainViewport); Start(MainViewport); Stop; Stop; Stop goes through one Idle to Playing
and one Playing to Idle transition and ends not playing, yet no placement call and no
teardown call was made. -/
theorem start_stop_without_viewport_places_nothing :
    ∃ t, run 2 [Call.Start EHoloPlayModeType.PlayMode_InMainViewport Environment.configured,
                Call.Start EHoloPlayModeType.PlayMode_InMainViewport Environment.configured,
                Call.Stop, Call.Stop, Call.Stop] (State.initial Host.withoutViewport) = .ok t
      ∧ t.bIsPlaying = false
      ∧ idleToPlaying false
          [Call.Start EHoloPlayModeType.PlayMode_InMainViewport Environment.configured,
           Call.Start EHoloPlayModeType.PlayMode_InMainViewport Environment.configured,
           Call.Stop, Call.Stop, Call.Stop] = 1
      ∧ playingToIdle false
          [Call.Start EHoloPlayModeType.PlayMode_InMainViewport Environment.configured,
           Call.Start EHoloPlayModeType.PlayMode_InMainViewport Environment.configured,
           Call.Stop, Call.Stop, Call.Stop] = 1
      ∧ placementCount t.log = 0 ∧ teardownCount t.log = 0 :=
  ⟨_, rfl, rfl, rfl, rfl, rfl, rfl⟩

/-! ### C5: presentation artifacts while playing -/

theorem singleArtifact_wellFormed {s : State} (h : SingleArtifact s) : WellFormed s := by
  refine ⟨fun hp hc => ⟨(h.separate hp hc).1, (h.separate hp hc).2.1⟩, ?_, h.mode⟩
  intro hp _
  cases hm : s.CurrentHoloPlayModeType with
  | PlayMode_InSeparateWindow => exact (h.separate hp hm).2.2.1
  | PlayMode_InMainViewport =>
    obtain ⟨_, gv, v, _, hv, _⟩ := h.main hp hm
    rw [hv]; rfl
  | PlayMode_Other => exact absurd hm (h.mode hp)

theorem singleArtifact_exactlyOne {s : State} (h : SingleArtifact s) (hp : s.bIsPlaying = true) :
    exactlyOneArtifact s = true := by
  cases hm : s.CurrentHoloPlayModeType with
  | PlayMode_InSeparateWindow =>
    obtain ⟨_, hw, hv, gv, hg, hws⟩ := h.separate hp hm
    obtain ⟨v, hv⟩ := Option.isSome_iff_exists.mp hv
    simp [exactlyOneArtifact, hasWindow, overlayAttached, hw, hv, hg, hws]
  | PlayMode_InMainViewport =>
    obtain ⟨hw, gv, v, hg, hv, hws⟩ := h.main hp hm
    simp [exactlyOneArtifact, hasWindow, overlayAttached, hw, hv, hg, hws]
  | PlayMode_Other => exact absurd hm (h.mode hp)

theorem singleArtifact_start {s : State} (h : SingleArtifact s) (mode : EHoloPlayModeType)
    (env : Environment) (hl : env.HoloPlayWindowSettings.bLockInMainViewport = false) :
    SingleArtifact (StartPlayer mode env s) := by
  cases hp : s.bIsPlaying with
  | true => rw [StartPlayer_playing mode env s hp]; exact h
  | false =>
    obtain ⟨hw, gv, hg, hws⟩ := h.idle hp
    cases mode with
    | PlayMode_InSeparateWindow =>
      refine ⟨?_, ?_, ?_, ?_, ?_, ?_, ?_⟩
      · simp [StartPlayer, hp, h.standalone]
      · simp [StartPlayer, hp, h.capture]
      · simp [StartPlayer, hp, hl]
      · intro hc; simp [StartPlayer, hp] at hc
      · intro _ _
        refine ⟨by simp [StartPlayer, hp], by simp [StartPlayer, hp, placeSeparateWindow],
          by simp [StartPlayer, hp, placeSeparateWindow], gv, ?_, hws⟩
        simp [StartPlayer, hp, hg]
      · intro _ hc; simp [StartPlayer, hp] at hc
      · intro _; simp [StartPlayer, hp]
    | PlayMode_InMainViewport =>
      refine ⟨?_, ?_, ?_, ?_, ?_, ?_, ?_⟩
      · simp [StartPlayer, hp, h.standalone]
      · simp [StartPlayer, hp, h.capture]
      · simp [StartPlayer, hp, hl]
      · intro hc; simp [StartPlayer, hp] at hc
      · intro _ hc; simp [StartPlayer, hp] at hc
      · intro _ _
        refine ⟨by simp [StartPlayer, hp, hw], ?_⟩
        simp [StartPlayer, hp, placeMainViewport, hg, hws]
      · intro _; simp [StartPlayer, hp]
    | PlayMode_Other =>
      refine ⟨?_, ?_, ?_, ?_, ?_, ?_, ?_⟩
      · simp [StartPlayer, hp, h.standalone]
      · simp [StartPlayer, hp, h.capture]
      · simp [StartPlayer, hp, hl]
      · intro _
        refine ⟨by simp [StartPlayer, hp, hw], gv, ?_, hws⟩
        simp [StartPlayer, hp, hg]
      · intro hc; simp [StartPlayer, hp] at hc
      · intro hc; simp [StartPlayer, hp] at hc
      · intro hc; simp [StartPlayer, hp] at hc

theorem singleArtifact_stop {s : State} (h : SingleArtifact s) (n : Nat) :
    ∃ t, StopPlayer (n + 2) s = .ok t ∧ SingleArtifact t := by
  cases hp : s.bIsPlaying with
  | false => exact ⟨s, StopPlayer_idle (n + 1) s hp, h⟩
  | true =>
    obtain ⟨t, ht, hr⟩ := StopPlayer_wellFormed n s hp (singleArtifact_wellFormed h)
    have hmode : teardownMode s = s.CurrentHoloPlayModeType := by
      simp [teardownMode, h.standalone, h.capture, h.lock]
    refine ⟨t, ht, ?_⟩
    rcases hr with ⟨hm, h1, hwin, _, _, _, hgv, _, _, hss⟩ | ⟨hm, h1, _, _, hwin, _, _, hgv, _, _, hss⟩
    · rw [hmode] at hm
      obtain ⟨hw, gv, v, hg, hv, hws⟩ := h.main hp hm
      obtain ⟨v2, hv2, hg2, _, _⟩ := hgv gv hg
      have hvv : v2 = v := by rw [hv] at hv2; cases hv2; rfl
      subst hvv
      refine ⟨hss.2.2.2.1.trans h.standalone, hss.2.2.2.2.1.trans h.capture,
        hss.2.2.1.trans h.lock, ?_, ?_, ?_, ?_⟩
      · intro _
        refine ⟨hwin.trans hw, _, hg2, ?_⟩
        simp [hws]
      · intro hc; rw [h1] at hc; cases hc
      · intro hc; rw [h1] at hc; cases hc
      · intro hc; rw [h1] at hc; cases hc
    · rw [hmode] at hm
      obtain ⟨_, _, _, gv, hg, hws⟩ := h.separate hp hm
      refine ⟨hss.2.2.2.1.trans h.standalone, hss.2.2.2.2.1.trans h.capture,
        hss.2.2.1.trans h.lock, ?_, ?_, ?_, ?_⟩
      · intro _
        exact ⟨hwin, gv, hgv.trans hg, hws⟩
      · intro hc; rw [h1] at hc; cases hc
      · intro hc; rw [h1] at hc; cases hc
      · intro hc; rw [h1] at hc; cases hc

theorem singleArtifact_run (n : Nat) (calls : List Call)
    (hunlocked : ∀ c ∈ calls, c.locks = false) (s : State) (h : SingleArtifact s) :
    ∃ t, run (n + 2) calls s = .ok t ∧ SingleArtifact t := by
  induction calls generalizing s with
  | nil => exact ⟨s, rfl, h⟩
  | cons x xs ih =>
    have hx : x.locks = false := hunlocked x (List.mem_cons_self _ _)
    have hxs : ∀ y ∈ xs, y.locks = false := fun y hy => hunlocked y (List.mem_cons_of_mem _ hy)
    cases x with
    | Start mode env =>
      obtain ⟨t, ht, hJ⟩ := ih hxs _ (singleArtifact_start h mode env hx)
      exact ⟨t, by simp only [HoloPlay.run, Call.apply]; exact ht, hJ⟩
    | Stop =>
      obtain ⟨s1, hs1, hJ1⟩ := singleArtifact_stop h n
      obtain ⟨t, ht, hJ⟩ := ih hxs s1 hJ1
      exact ⟨t, by simp only [HoloPlay.run, Call.apply, hs1]; exact ht, hJ⟩
    | Restart mode env =>
      obtain ⟨s1, hs1, hJ1⟩ := singleArtifact_stop h n
      obtain ⟨t, ht, hJ⟩ := ih hxs _ (singleArtifact_start hJ1 mode env hx)
      exact ⟨t, by simp only [HoloPlay.run, Call.apply, RestartPlayer, hs1]; exact ht, hJ⟩

/-- C5, as the code has it: start from the Idle state on a host with a primary game viewport
that has no widget yet, in a session that is neither standalone nor a movie capture, and
apply any sequence of `StartPlayer`, `StopPlayer` and `RestartPlayer` calls (any modes) whose
configurations do not set the lock-in-main-viewport flag. The run completes, and if the
state reached is playing, exactly one presentation artifact exists: the window handle is
set, or the surface is among the widgets of the game viewport, not both and not neither. -/
theorem one_artifact_while_playing (n : Nat) (calls : List Call)
    (hunlocked : ∀ c ∈ calls, c.locks = false) (host : Host) (ms : List Manager)
    (gv : UGameViewportClient) (hgv : host.GameViewport = some gv)
    (hws : gv.ViewportWidgets = []) :
    ∃ t, run (n + 2) calls (State.idleWith host ms) = .ok t
      ∧ (t.bIsPlaying = true → exactlyOneArtifact t = true) := by
  have h0 : SingleArtifact (State.idleWith host ms) :=
    ⟨rfl, rfl, rfl, fun _ => ⟨rfl, gv, hgv, hws⟩, fun hc => Bool.noConfusion hc,
      fun hc => Bool.noConfusion hc, fun hc => Bool.noConfusion hc⟩
  obtain ⟨t, ht, hJ⟩ := singleArtifact_run n calls hunlocked _ h0
  exact ⟨t, ht, singleArtifact_exactlyOne hJ⟩

/-- Witness for C5: Start(SeparateWindow); Restart(MainViewport) ends playing with exactly
one artifact. -/
theorem one_artifact_while_playing_witness :
    ∃ t, run 2 [Call.Start EHoloPlayModeType.PlayMode_InSeparateWindow Environment.configured,
                Call.Restart EHoloPlayModeType.PlayMode_InMainViewport Environment.configured]
            (State.idleWith Host.withViewport []) = .ok t
      ∧ t.bIsPlaying = true ∧ exactlyOneArtifact t = true := by
  obtain ⟨t, h1, h2⟩ := one_artifact_while_playing 0
    [Call.Start EHoloPlayModeType.PlayMode_InSeparateWindow Environment.configured,
     Call.Restart EHoloPlayModeType.PlayMode_InMainViewport Environment.configured]
    (by decide) Host.withViewport [] _ rfl rfl
  have hb : (match run 2
      [Call.Start EHoloPlayModeType.PlayMode_InSeparateWindow Environment.configured,
       Call.Restart EHoloPlayModeType.PlayMode_InMainViewport Environment.configured]
      (State.idleWith Host.withViewport []) with
      | .ok u => u.bIsPlaying
      | .error _ => false) = true := rfl
  rw [h1] at hb
  exact ⟨t, h1, hb, h2 hb⟩

/-- C5 as stated fails, both ways. Without a primary game viewport, after
Start(MainViewport) the player is playing with neither artifact. With a primary game
viewport and the lock flag configured, after Start(SeparateWindow); Stop; Start(MainViewport)
the player is playing with both: the window the stop left behind and the attached surface. -/
theorem playing_with_no_or_two_artifacts :
    (∃ t, run 2 [Call.Start EHoloPlayModeType.PlayMode_InMainViewport Environment.configured]
            (State.initial Host.withoutViewport) = .ok t
        ∧ t.bIsPlaying = true ∧ hasWindow t = false ∧ overlayAttached t = false)
    ∧ (∃ t, run 2 [Call.Start EHoloPlayModeType.PlayMode_InSeparateWindow Environment.locked,
                   Call.Stop,
                   Call.Start EHoloPlayModeType.PlayMode_InMainViewport Environment.locked]
            (State.initial Host.withViewport) = .ok t
        ∧ t.bIsPlaying = true ∧ hasWindow t = true ∧ overlayAttached t = true) :=
  ⟨⟨_, rfl, rfl, rfl, rfl⟩, ⟨_, rfl, rfl, rfl, by decide⟩⟩

end HoloPlay
